import Mathlib

/-!
# WebChimera.js: the asynchronous bridge of `JsVlcPlayer`

A shallow embedding of `src/JsVlcPlayer.cpp`: the video-memory callbacks
(`video_format_cb`, `video_cleanup_cb`, `video_lock_cb`, `video_unlock_cb`,
`video_display_cb`), the player-event callback (`media_player_event`), the
consumer-side drain (`handleAsync`) and the processing of each queued item.

Conventions of the embedding.

* `unsigned` is a 32-bit machine integer: a `Nat` reduced with `u32` after every
  arithmetic operation the C++ code performs on it.
* `std::vector<char>` is the list of its bytes, `std::deque` the list of its
  elements (front first).
* A `char*` is a pair of the region it points into and a byte offset.
* V8 and libuv are outside the code.  What the code does to them is recorded in
  the state: the arrays it creates (`jsHeap`), the consumer functions it calls
  (`jsCalls`) and the pending wake-up of the loop (`asyncPending`).
* A `std::initializer_list` is the list of its elements together with whether
  its backing array still exists (`InitializerList`); reading an element of an
  array that no longer exists gives `JsValue.indeterminate`.
* `assert` is a proof obligation: the asserted condition is a definition of its
  own and execution continues past it, as in a build with `NDEBUG`.
* The mutex `_asyncDataGuard` has no effect in a sequential execution and is not
  part of the state.  What each method does to the queue and to the mutex, in
  program order, is listed separately (`video_format_cb_actions`, ...,
  `handleAsync_actions`), and `guarded` says that every access of such a list is
  made with the mutex held.
-/

namespace JsVlcPlayer

/-! ## Machine integers -/

/-- Reduction of a natural number to the range of `unsigned`. -/
def u32 (n : Nat) : Nat := n % 4294967296

/-- Conversion of an `unsigned` to `int32_t`, the parameter type of `Integer::New`. -/
def toInt32 (n : Nat) : Int :=
  if u32 n < 2147483648 then (u32 n : Int) else (u32 n : Int) - 4294967296

/-! ## Data model -/

/-- The enumeration `Callbacks_e` of `JsVlcPlayer.h`. -/
inductive Callbacks_e
  | CB_FrameSetup
  | CB_FrameReady
  | CB_FrameCleanup
  | CB_MediaPlayerMediaChanged
  | CB_MediaPlayerNothingSpecial
  | CB_MediaPlayerOpening
  | CB_MediaPlayerBuffering
  | CB_MediaPlayerPlaying
  | CB_MediaPlayerPaused
  | CB_MediaPlayerStopped
  | CB_MediaPlayerForward
  | CB_MediaPlayerBackward
  | CB_MediaPlayerEndReached
  | CB_MediaPlayerEncounteredError
  | CB_MediaPlayerTimeChanged
  | CB_MediaPlayerPositionChanged
  | CB_MediaPlayerSeekableChanged
  | CB_MediaPlayerPausableChanged
  | CB_MediaPlayerLengthChanged
  | CB_Max
  deriving DecidableEq, Repr

/-- The native event kinds of the decoder (`libvlc_event_e`, declared by libvlc):
the sixteen kinds named in the `switch` of `LibvlcEvent::process`, and every
other kind, identified by its numeric code. -/
inductive libvlc_event_e
  | libvlc_MediaPlayerMediaChanged
  | libvlc_MediaPlayerNothingSpecial
  | libvlc_MediaPlayerOpening
  | libvlc_MediaPlayerBuffering
  | libvlc_MediaPlayerPlaying
  | libvlc_MediaPlayerPaused
  | libvlc_MediaPlayerStopped
  | libvlc_MediaPlayerForward
  | libvlc_MediaPlayerBackward
  | libvlc_MediaPlayerEndReached
  | libvlc_MediaPlayerEncounteredError
  | libvlc_MediaPlayerTimeChanged
  | libvlc_MediaPlayerPositionChanged
  | libvlc_MediaPlayerSeekableChanged
  | libvlc_MediaPlayerPausableChanged
  | libvlc_MediaPlayerLengthChanged
  | other (code : Nat)
  deriving DecidableEq, Repr

/-- The payload `u` of a native event.  The members the code reads are kept as
separate fields; a `float` is kept as its bit pattern. -/
structure libvlc_event_u where
  new_cache : Nat
  new_time : Int
  new_position : Nat
  new_seekable : Int
  new_pausable : Int
  new_length : Int
  deriving DecidableEq, Repr

/-- A native event `libvlc_event_t`: its kind and its payload. -/
structure libvlc_event_t where
  type : libvlc_event_e
  u : libvlc_event_u
  deriving DecidableEq, Repr

/-- The `double` handed to `Number::New`, kept as the value it was converted from. -/
inductive JsDouble
  | ofFloat (bits : Nat)
  | ofInt64 (v : Int)
  deriving DecidableEq, Repr

/-- The V8 values the code builds as callback arguments; `indeterminate` is a
handle read from storage whose lifetime has ended. -/
inductive JsValue
  | number (d : JsDouble)
  | boolean (b : Bool)
  | integer (v : Int)
  | string (s : String)
  | object (id : Nat)
  | emptyHandle
  | indeterminate
  deriving DecidableEq, Repr

/-- A `std::initializer_list< v8::Local<v8::Value> >`: the elements its backing
array was created with, and whether that array still exists.  The backing array
of a braced list is a temporary: written as a function argument it exists until
the call returns; assigned to a variable it is destroyed at the end of the
assignment, and the variable keeps its address and its length. -/
structure InitializerList where
  elems : List JsValue
  live : Bool
  deriving DecidableEq, Repr

/-- A default-constructed `std::initializer_list`: no element. -/
def InitializerList.empty : InitializerList := ⟨[], true⟩

/-- A braced list written as the argument of a call. -/
def InitializerList.argument (l : List JsValue) : InitializerList := ⟨l, true⟩

/-- The value of a variable after `list = { ... };`: the backing array of the
braced list no longer exists. -/
def InitializerList.assigned (l : List JsValue) : InitializerList := ⟨l, false⟩

/-- The copy `std::vector<...> argList = list;` of `callCallback`: as many
elements as the list has, read from its backing array; what is read from an array
that no longer exists is indeterminate. -/
def InitializerList.toVector (l : InitializerList) : List JsValue :=
  if l.live then l.elems else l.elems.map (fun _ => JsValue.indeterminate)

/-- A `Uint8Array` created through V8: its length and the properties set on it. -/
structure JsArray where
  length : Nat
  properties : List (String × JsValue)
  deriving DecidableEq, Repr

/-- The memory a `char*` points into. -/
inductive Region
  | null
  | tmpFrameBuffer
  | jsArrayData (id : Nat)
  deriving DecidableEq, Repr

/-- A `char*`: a region and a byte offset from its start. -/
structure CharPtr where
  region : Region
  offset : Nat
  deriving DecidableEq, Repr

/-- The null pointer. -/
def CharPtr.nullptr : CharPtr := ⟨Region.null, 0⟩

/-- Pointer arithmetic `p + n`. -/
def CharPtr.add (p : CharPtr) (n : Nat) : CharPtr := ⟨p.region, p.offset + n⟩

/-- The work items: the subclasses of `AsyncData` with their fields. -/
inductive AsyncData
  | RV32FrameSetupData (width height size : Nat)
  | I420FrameSetupData (width height uPlaneOffset vPlaneOffset size : Nat)
  | FrameUpdated
  | CallbackData (callback : Callbacks_e)
  | LibvlcEvent (libvlcEvent : libvlc_event_t)
  deriving DecidableEq, Repr

/-- The enumeration `PixelFormat` of `JsVlcPlayer.h`: the packed 32-bit format
and the planar 4:2:0 format. -/
inductive PixelFormat
  | RV32
  | I420
  deriving DecidableEq, Repr

/-- The fields of a `JsVlcPlayer` the bridge reads and writes, together with the
record of what it did to V8 and libuv.

* `_pixelFormat` is the configured pixel format, a member declared in
  `JsVlcPlayer.h`; no function of `JsVlcPlayer.cpp` reads or writes it.
* `_asyncData` is the queue of work items, `_tmpFrameBuffer` the scratch buffer
  (a `std::vector<char>`), `_uPlaneOffset` and `_vPlaneOffset` the stored plane
  offsets (`unsigned`; the types of these three members are read off their use in
  `JsVlcPlayer.cpp`), `_jsFrameBuffer` the persistent handle to the consumer's
  array and `_jsRawFrameBuffer` the pointer to its bytes.
* `_jsCallbacks c` is `true` when the handle `_jsCallbacks[c]` holds a function.
* `asyncPending` is set by `uv_async_send`; `jsHeap` lists the arrays created
  through V8, an array being identified by its position; `jsCalls` lists the
  calls of consumer functions, with their arguments, in call order. -/
structure Player where
  _asyncData : List AsyncData
  _pixelFormat : PixelFormat
  _tmpFrameBuffer : List Nat
  _uPlaneOffset : Nat
  _vPlaneOffset : Nat
  _jsFrameBuffer : JsValue
  _jsRawFrameBuffer : CharPtr
  _jsCallbacks : Callbacks_e → Bool
  asyncPending : Bool
  jsHeap : List JsArray
  jsCalls : List (Callbacks_e × List JsValue)

/-- The player after its constructor: `_jsRawFrameBuffer( nullptr )`, every other
member default-constructed, no consumer function registered.  The constructor
leaves `_pixelFormat` uninitialised; the value 0 of the enumeration stands for
it. -/
def Player.init : Player where
  _asyncData := []
  _pixelFormat := PixelFormat.RV32
  _tmpFrameBuffer := []
  _uPlaneOffset := 0
  _vPlaneOffset := 0
  _jsFrameBuffer := JsValue.emptyHandle
  _jsRawFrameBuffer := CharPtr.nullptr
  _jsCallbacks := fun _ => false
  asyncPending := false
  jsHeap := []
  jsCalls := []

/-- The method `resize( n )` of `std::vector<char>`: the first `n` bytes are kept,
new bytes are zero. -/
def resize (v : List Nat) (n : Nat) : List Nat :=
  v.take n ++ List.replicate (n - v.length) 0

/-- The property setter `setJsCallback`, called with a function value. -/
def setJsCallback (callback : Callbacks_e) (p : Player) : Player :=
  { p with _jsCallbacks := fun c => if c = callback then true else p._jsCallbacks c }

/-! ## The video-memory callbacks -/

/-- What `video_format_cb` writes through its pointer parameters, and its return
value. -/
structure FormatOut where
  chroma : String
  pitches : List Nat
  lines : List Nat
  ret : Nat
  deriving DecidableEq, Repr

/-- The statement `p = n; if( p % 4 ) p += 4 - p % 4;` of `video_format_cb`. -/
def alignPitch (n : Nat) : Nat :=
  if n % 4 ≠ 0 then u32 (n + (4 - n % 4)) else n

/-- The method `video_format_cb`, called with `*width = width` and `*height = height`. -/
def video_format_cb (p : Player) (width height : Nat) : Player × FormatOut :=
  let evenWidth := u32 (width + (width &&& 1))
  let evenHeight := u32 (height + (height &&& 1))
  let pitches0 := alignPitch evenWidth
  let pitches1 := alignPitch (evenWidth / 2)
  let pitches2 := pitches1
  let lines0 := evenHeight
  let lines1 := evenHeight / 2
  let lines2 := lines1
  let uPlaneOffset := u32 (pitches0 * lines0)
  let vPlaneOffset := u32 (uPlaneOffset + u32 (pitches1 * lines1))
  let tmpFrameBuffer :=
    resize p._tmpFrameBuffer
      (u32 (u32 (u32 (pitches0 * lines0) + u32 (pitches1 * lines1)) + u32 (pitches2 * lines2)))
  ({ p with
      _uPlaneOffset := uPlaneOffset
      _vPlaneOffset := vPlaneOffset
      _tmpFrameBuffer := tmpFrameBuffer
      _asyncData := p._asyncData ++
        [AsyncData.I420FrameSetupData width height uPlaneOffset vPlaneOffset
          (u32 tmpFrameBuffer.length)]
      asyncPending := true },
   { chroma := "I420"
     pitches := [pitches0, pitches1, pitches2]
     lines := [lines0, lines1, lines2]
     ret := 1 })

/-- The condition asserted in `video_format_cb` after the pitches are written. -/
def video_format_cb_assert (out : FormatOut) : Bool :=
  out.pitches.all (fun x => x % 4 == 0)

/-- The method `video_cleanup_cb`. -/
def video_cleanup_cb (p : Player) : Player :=
  { p with
      _tmpFrameBuffer := if p._tmpFrameBuffer.isEmpty then p._tmpFrameBuffer else []
      _asyncData := p._asyncData ++ [AsyncData.CallbackData Callbacks_e.CB_FrameCleanup]
      asyncPending := true }

/-- The method `video_lock_cb`: the new state and the three pointers written to
`planes` (the return value is always `nullptr`). -/
def video_lock_cb (p : Player) : Player × List CharPtr :=
  let r : Player × CharPtr :=
    if p._tmpFrameBuffer.isEmpty then
      (p, p._jsRawFrameBuffer)
    else if p._jsRawFrameBuffer ≠ CharPtr.nullptr then
      ({ p with _tmpFrameBuffer := [] }, p._jsRawFrameBuffer)
    else
      (p, ⟨Region.tmpFrameBuffer, 0⟩)
  (r.1, [r.2, r.2.add p._uPlaneOffset, r.2.add p._vPlaneOffset])

/-- The method `video_unlock_cb`: an empty body. -/
def video_unlock_cb (p : Player) : Player := p

/-- The method `video_display_cb`. -/
def video_display_cb (p : Player) : Player :=
  { p with
      _asyncData := p._asyncData ++ [AsyncData.FrameUpdated]
      asyncPending := true }

/-- The method `media_player_event`. -/
def media_player_event (e : libvlc_event_t) (p : Player) : Player :=
  { p with
      _asyncData := p._asyncData ++ [AsyncData.LibvlcEvent e]
      asyncPending := true }

/-! ## Processing of the work items on the consumer thread -/

/-- The method `callCallback`: nothing happens when no function is registered for
`callback`; otherwise `list` is copied into the vector `argList` and the function
is called with the elements of `argList`. -/
def callCallback (callback : Callbacks_e) (list : InitializerList) (p : Player) : Player :=
  if p._jsCallbacks callback = false then p
  else { p with jsCalls := p.jsCalls ++ [(callback, list.toVector)] }

/-- Modelled from the spec: the constant `vlc::DEF_CHROMA` of the libvlc wrapper,
the name of the packed 32-bit pixel format. -/
def DEF_CHROMA : String := "RV32"

/-- The condition asserted in `setupBuffer( const RV32FrameSetupData& )`. -/
def setupBuffer_RV32_assert (size : Nat) : Bool := size != 0

/-- The method `setupBuffer( const RV32FrameSetupData& )`.  The `Uint8Array` V8
creates is appended to `jsHeap`; its data pointer, taken to be non-null, is
stored in `_jsRawFrameBuffer`. -/
def setupBuffer_RV32 (width height size : Nat) (p : Player) : Player :=
  if width = 0 ∨ height = 0 then p
  else
    let jsWidth := JsValue.integer (toInt32 width)
    let jsHeight := JsValue.integer (toInt32 height)
    let jsPixelFormat := JsValue.string DEF_CHROMA
    let jsArray : JsArray :=
      { length := size
        properties :=
          [("width", jsWidth), ("height", jsHeight), ("pixelFormat", jsPixelFormat)] }
    callCallback Callbacks_e.CB_FrameSetup
      (InitializerList.argument [jsWidth, jsHeight, jsPixelFormat])
      { p with
          jsHeap := p.jsHeap ++ [jsArray]
          _jsFrameBuffer := JsValue.object p.jsHeap.length
          _jsRawFrameBuffer := ⟨Region.jsArrayData p.jsHeap.length, 0⟩ }

/-- The condition asserted in `setupBuffer( const I420FrameSetupData& )`. -/
def setupBuffer_I420_assert (uPlaneOffset vPlaneOffset size : Nat) : Bool :=
  uPlaneOffset != 0 && vPlaneOffset != 0 && size != 0

/-- The method `setupBuffer( const I420FrameSetupData& )`.  The `Uint8Array` V8
creates is appended to `jsHeap`; its data pointer, taken to be non-null, is
stored in `_jsRawFrameBuffer`. -/
def setupBuffer_I420 (width height uPlaneOffset vPlaneOffset size : Nat) (p : Player) :
    Player :=
  if width = 0 ∨ height = 0 then p
  else
    let jsWidth := JsValue.integer (toInt32 width)
    let jsHeight := JsValue.integer (toInt32 height)
    let jsPixelFormat := JsValue.string "I420"
    let jsArray : JsArray :=
      { length := size
        properties :=
          [("width", jsWidth), ("height", jsHeight), ("pixelFormat", jsPixelFormat),
           ("uOffset", JsValue.integer (toInt32 uPlaneOffset)),
           ("vOffset", JsValue.integer (toInt32 vPlaneOffset))] }
    callCallback Callbacks_e.CB_FrameSetup
      (InitializerList.argument [jsWidth, jsHeight, jsPixelFormat])
      { p with
          jsHeap := p.jsHeap ++ [jsArray]
          _jsFrameBuffer := JsValue.object p.jsHeap.length
          _jsRawFrameBuffer := ⟨Region.jsArrayData p.jsHeap.length, 0⟩ }

/-- The method `frameUpdated`. -/
def frameUpdated (p : Player) : Player :=
  callCallback Callbacks_e.CB_FrameReady (InitializerList.argument [p._jsFrameBuffer]) p

/-- The `switch` of `LibvlcEvent::process`: the values of `callback` and `list`
after it, starting from `callback = CB_Max` and the default-constructed `list`.
The six cases with a payload assign a braced list to `list`, whose backing array
is destroyed at the end of that assignment. -/
def LibvlcEvent_switch (libvlcEvent : libvlc_event_t) : Callbacks_e × InitializerList :=
  match libvlcEvent.type with
  | .libvlc_MediaPlayerMediaChanged => (.CB_MediaPlayerMediaChanged, InitializerList.empty)
  | .libvlc_MediaPlayerNothingSpecial =>
      (.CB_MediaPlayerNothingSpecial, InitializerList.empty)
  | .libvlc_MediaPlayerOpening => (.CB_MediaPlayerOpening, InitializerList.empty)
  | .libvlc_MediaPlayerBuffering =>
      (.CB_MediaPlayerBuffering,
        InitializerList.assigned [.number (.ofFloat libvlcEvent.u.new_cache)])
  | .libvlc_MediaPlayerPlaying => (.CB_MediaPlayerPlaying, InitializerList.empty)
  | .libvlc_MediaPlayerPaused => (.CB_MediaPlayerPaused, InitializerList.empty)
  | .libvlc_MediaPlayerStopped => (.CB_MediaPlayerStopped, InitializerList.empty)
  | .libvlc_MediaPlayerForward => (.CB_MediaPlayerForward, InitializerList.empty)
  | .libvlc_MediaPlayerBackward => (.CB_MediaPlayerBackward, InitializerList.empty)
  | .libvlc_MediaPlayerEndReached => (.CB_MediaPlayerEndReached, InitializerList.empty)
  | .libvlc_MediaPlayerEncounteredError =>
      (.CB_MediaPlayerEncounteredError, InitializerList.empty)
  | .libvlc_MediaPlayerTimeChanged =>
      (.CB_MediaPlayerTimeChanged,
        InitializerList.assigned [.number (.ofInt64 libvlcEvent.u.new_time)])
  | .libvlc_MediaPlayerPositionChanged =>
      (.CB_MediaPlayerPositionChanged,
        InitializerList.assigned [.number (.ofFloat libvlcEvent.u.new_position)])
  | .libvlc_MediaPlayerSeekableChanged =>
      (.CB_MediaPlayerSeekableChanged,
        InitializerList.assigned [.boolean (libvlcEvent.u.new_seekable != 0)])
  | .libvlc_MediaPlayerPausableChanged =>
      (.CB_MediaPlayerPausableChanged,
        InitializerList.assigned [.boolean (libvlcEvent.u.new_pausable != 0)])
  | .libvlc_MediaPlayerLengthChanged =>
      (.CB_MediaPlayerLengthChanged,
        InitializerList.assigned [.number (.ofInt64 libvlcEvent.u.new_length)])
  | .other _ => (.CB_Max, InitializerList.empty)

/-- The method `LibvlcEvent::process`: after the `switch`, `callCallback` is called
with `list` as the `switch` left it. -/
def LibvlcEvent_process (libvlcEvent : libvlc_event_t) (p : Player) : Player :=
  let r := LibvlcEvent_switch libvlcEvent
  if r.1 ≠ Callbacks_e.CB_Max then callCallback r.1 r.2 p else p

/-- The call `LibvlcEvent::process` makes for an event of a mapped kind when a
function is registered: the callback, and the arguments as `callCallback` copies
them from `list`. -/
def LibvlcEvent_call (libvlcEvent : libvlc_event_t) : Callbacks_e × List JsValue :=
  ((LibvlcEvent_switch libvlcEvent).1, (LibvlcEvent_switch libvlcEvent).2.toVector)

/-- The virtual method `AsyncData::process`, dispatched on the kind of the item. -/
def AsyncData.process : AsyncData → Player → Player
  | .RV32FrameSetupData width height size, p => setupBuffer_RV32 width height size p
  | .I420FrameSetupData width height uPlaneOffset vPlaneOffset size, p =>
      setupBuffer_I420 width height uPlaneOffset vPlaneOffset size p
  | .FrameUpdated, p => frameUpdated p
  | .CallbackData callback, p => callCallback callback InitializerList.empty p
  | .LibvlcEvent libvlcEvent, p => LibvlcEvent_process libvlcEvent p

/-- The loop `for( const auto& i: tmpData ) i->process( this );`. -/
def processAll (tmpData : List AsyncData) (p : Player) : Player :=
  tmpData.foldl (fun q i => i.process q) p

/-- The method `handleAsync`.  The result is the final state and the items on
which `process` was called, in call order.  `arrivals` lists, for each round of
the `while` loop, the items the producer threads append while that round
processes its items; after the last listed round nothing arrives. -/
def handleAsync : List (List AsyncData) → Player → Player × List AsyncData
  | [], p =>
      if p._asyncData.isEmpty then (p, [])
      else (processAll p._asyncData { p with _asyncData := [] }, p._asyncData)
  | a :: rest, p =>
      if p._asyncData.isEmpty then (p, [])
      else
        let q := processAll p._asyncData { p with _asyncData := [] }
        let r := handleAsync rest { q with _asyncData := q._asyncData ++ a }
        (r.1, p._asyncData ++ r.2)

/-- The callback given to `uv_async_init`: the pending wake-up is consumed and
`handleAsync` runs (`handle->data` is the player for its whole lifetime). -/
def drain (p : Player) : Player :=
  (handleAsync [] { p with asyncPending := false }).1

/-! ## Sequences of calls -/

/-- The calls the decoder makes on its threads; each appends to the queue. -/
inductive ProducerCall
  | format (width height : Nat)
  | cleanup
  | display
  | event (e : libvlc_event_t)
  deriving DecidableEq, Repr

/-- The effect of a producer call on the player. -/
def ProducerCall.run : ProducerCall → Player → Player
  | .format width height, p => (video_format_cb p width height).1
  | .cleanup, p => video_cleanup_cb p
  | .display, p => video_display_cb p
  | .event e, p => media_player_event e p

/-- The steps of a sequential execution of the bridge. -/
inductive Step
  | negotiate (width height : Nat)
  | lock
  | unlock
  | display
  | cleanup
  | drain
  deriving DecidableEq, Repr

/-- The effect of a step on the player. -/
def Step.run : Step → Player → Player
  | .negotiate width height, p => (video_format_cb p width height).1
  | .lock, p => (video_lock_cb p).1
  | .unlock, p => video_unlock_cb p
  | .display, p => video_display_cb p
  | .cleanup, p => video_cleanup_cb p
  | .drain, p => JsVlcPlayer.drain p

/-- The state after a sequence of steps. -/
def runSteps (steps : List Step) (p : Player) : Player :=
  steps.foldl (fun q s => s.run q) p

/-- The scratch buffer exists: `_tmpFrameBuffer` is not empty. -/
def scratchExists (p : Player) : Bool := !p._tmpFrameBuffer.isEmpty

/-- A consumer buffer is attached: `_jsRawFrameBuffer` is not null. -/
def consumerAttached (p : Player) : Bool := p._jsRawFrameBuffer != CharPtr.nullptr

/-! ## The specification's layout algorithm and state machine -/

/-- The formula `align4(n) = n + ((4 - n % 4) % 4)` of the specification. -/
def align4 (n : Nat) : Nat := n + ((4 - n % 4) % 4)

/-- The values named by the layout algorithm of the specification. -/
structure PlanarLayout where
  evenWidth : Nat
  evenHeight : Nat
  pitch0 : Nat
  pitch1 : Nat
  offset_plane1 : Nat
  offset_plane2 : Nat
  totalSize : Nat
  deriving DecidableEq, Repr

/-- The layout algorithm of the specification for the planar format, in the
specification's words.  `m` is applied to the result of every addition and
multiplication: with `m = id` the formulas are evaluated on the integers, with
`m = u32` in the arithmetic of `unsigned`. -/
def planarLayout (m : Nat → Nat) (width height : Nat) : PlanarLayout :=
  let evenWidth := m (width + (width &&& 1))
  let evenHeight := m (height + (height &&& 1))
  let pitch0 := m (align4 evenWidth)
  let pitch1 := m (align4 (evenWidth / 2))
  let offset_plane1 := m (pitch0 * evenHeight)
  let offset_plane2 := m (offset_plane1 + m (pitch1 * (evenHeight / 2)))
  let totalSize := m (m (pitch0 * evenHeight) + m (m (2 * pitch1) * (evenHeight / 2)))
  { evenWidth := evenWidth, evenHeight := evenHeight, pitch0 := pitch0, pitch1 := pitch1,
    offset_plane1 := offset_plane1, offset_plane2 := offset_plane2, totalSize := totalSize }

/-- The states of the specification's ownership state machine. -/
inductive BufferState
  | NoBuffer
  | ScratchOnly
  | ConsumerAttached
  deriving DecidableEq, Repr

/-- The state of the specification's state machine a player is in: a consumer
buffer is attached, or else only the scratch buffer exists, or else neither. -/
def bufferState (p : Player) : BufferState :=
  if consumerAttached p then BufferState.ConsumerAttached
  else if scratchExists p then BufferState.ScratchOnly
  else BufferState.NoBuffer

/-- The base pointer the specification gives for `lockForWrite`: the consumer
buffer if one is attached, otherwise the scratch buffer. -/
def specLockBase (p : Player) : CharPtr :=
  if consumerAttached p then p._jsRawFrameBuffer else ⟨Region.tmpFrameBuffer, 0⟩

/-- The item a producer call appends to the queue; for a negotiation, the item
carries the width and height and the offsets and size of the layout algorithm. -/
def ProducerCall.item : ProducerCall → AsyncData
  | .format width height =>
      AsyncData.I420FrameSetupData width height
        (planarLayout u32 width height).offset_plane1
        (planarLayout u32 width height).offset_plane2
        (planarLayout u32 width height).totalSize
  | .cleanup => AsyncData.CallbackData Callbacks_e.CB_FrameCleanup
  | .display => AsyncData.FrameUpdated
  | .event e => AsyncData.LibvlcEvent e

/-- The state after a sequence of producer calls, in the order they take the
queue. -/
def runCalls (calls : List ProducerCall) (p : Player) : Player :=
  calls.foldl (fun q c => c.run q) p

/-- What the specification lets a negotiation produce: the pitches of the planes,
the total size, and the item enqueued. -/
structure NegotiateSpec where
  pitches : List Nat
  totalSize : Nat
  item : AsyncData
  deriving DecidableEq, Repr

/-- The negotiation of the specification for a configured format, in the
arithmetic of `unsigned`.  Packed format: a single plane with
`pitch = evenWidth * 4` and `totalSize = pitch * evenHeight`, and an item without
plane offsets.  Planar format: the three-plane layout and an item with the two
plane offsets. -/
def specNegotiate (format : PixelFormat) (width height : Nat) : NegotiateSpec :=
  match format with
  | .RV32 =>
      let evenWidth := u32 (width + (width &&& 1))
      let evenHeight := u32 (height + (height &&& 1))
      let pitch := u32 (evenWidth * 4)
      let totalSize := u32 (pitch * evenHeight)
      { pitches := [pitch], totalSize := totalSize,
        item := AsyncData.RV32FrameSetupData width height totalSize }
  | .I420 =>
      { pitches :=
          [(planarLayout u32 width height).pitch0, (planarLayout u32 width height).pitch1,
           (planarLayout u32 width height).pitch1],
        totalSize := (planarLayout u32 width height).totalSize,
        item :=
          AsyncData.I420FrameSetupData width height
            (planarLayout u32 width height).offset_plane1
            (planarLayout u32 width height).offset_plane2
            (planarLayout u32 width height).totalSize }

/-- The number of bytes of the memory a pointer points into: the size of the
scratch buffer, the length of the array created through V8, nothing for null. -/
def regionSize (p : Player) : Region → Option Nat
  | .null => none
  | .tmpFrameBuffer => some p._tmpFrameBuffer.length
  | .jsArrayData id => (p.jsHeap.get? id).map JsArray.length

/-! ## The accesses to the queue and its mutex -/

/-- What a statement does to the queue `_asyncData` or to its mutex
`_asyncDataGuard`: `lock()`, `unlock()`, a read of the queue (`empty()`), a
modification of the queue (`push_back`, `swap`). -/
inductive QueueAction
  | lock
  | unlock
  | read
  | write
  deriving DecidableEq, Repr

/-- Every read and every modification of the queue in a sequence of actions of
one thread happens while that thread holds the mutex; `held` tells whether it
holds the mutex at the start. -/
def guarded : Bool → List QueueAction → Bool
  | _, [] => true
  | _, .lock :: rest => guarded true rest
  | _, .unlock :: rest => guarded false rest
  | held, .read :: rest => held && guarded held rest
  | held, .write :: rest => held && guarded held rest

/-- The actions of `video_format_cb`, in program order: `lock()`, `push_back`,
`unlock()`. -/
def video_format_cb_actions : List QueueAction := [.lock, .write, .unlock]

/-- The actions of `video_cleanup_cb`: `lock()`, `push_back`, `unlock()`. -/
def video_cleanup_cb_actions : List QueueAction := [.lock, .write, .unlock]

/-- The actions of `video_display_cb`: `lock()`, `push_back`, `unlock()`. -/
def video_display_cb_actions : List QueueAction := [.lock, .write, .unlock]

/-- The actions of `media_player_event`: `lock()`, `push_back`, `unlock()`. -/
def media_player_event_actions : List QueueAction := [.lock, .write, .unlock]

/-- The actions of `handleAsync`, in program order, along the execution
`handleAsync arrivals p`: each evaluation of the loop condition
`!_asyncData.empty()` is a read, and each round of the loop is `lock()`, `swap`,
`unlock()` (the items are then processed from the local `tmpData`). -/
def handleAsync_actions : List (List AsyncData) → Player → List QueueAction
  | [], p =>
      if p._asyncData.isEmpty then [.read]
      else [.read, .lock, .write, .unlock, .read]
  | a :: rest, p =>
      if p._asyncData.isEmpty then [.read]
      else
        let q := processAll p._asyncData { p with _asyncData := [] }
        [.read, .lock, .write, .unlock] ++
          handleAsync_actions rest { q with _asyncData := q._asyncData ++ a }

/-! ## Lemmas on the machine arithmetic and the layout -/

theorem u32_lt (n : Nat) : u32 n < 4294967296 := Nat.mod_lt _ (by norm_num)

theorem u32_of_lt {n : Nat} (h : n < 4294967296) : u32 n = n := Nat.mod_eq_of_lt h

theorem length_resize (v : List Nat) (n : Nat) : (resize v n).length = n := by
  simp only [resize, List.length_append, List.length_take, List.length_replicate]
  omega

theorem resize_zero (v : List Nat) : resize v 0 = [] := by
  simp [resize]

theorem alignPitch_eq (n : Nat) (h : n < 4294967296) : alignPitch n = u32 (align4 n) := by
  unfold alignPitch align4 u32
  split <;> omega

theorem total_eq (a b l : Nat) :
    u32 (u32 (u32 a + u32 (b * l)) + u32 (b * l)) = u32 (u32 a + u32 (u32 (2 * b) * l)) := by
  unfold u32
  have h : 2 * b % 4294967296 * l % 4294967296 = (2 * (b * l)) % 4294967296 := by
    rw [Nat.mod_mul_mod, Nat.mul_assoc]
  rw [h]
  omega

theorem planarLayout_totalSize_lt (width height : Nat) :
    (planarLayout u32 width height).totalSize < 4294967296 := u32_lt _

/-- The values `video_format_cb` writes and stores are those of the layout
algorithm in the arithmetic of `unsigned`. -/
theorem format_layout (p : Player) (width height : Nat) :
    (video_format_cb p width height).2.pitches =
        [(planarLayout u32 width height).pitch0, (planarLayout u32 width height).pitch1,
         (planarLayout u32 width height).pitch1] ∧
      (video_format_cb p width height).2.lines =
        [(planarLayout u32 width height).evenHeight,
         (planarLayout u32 width height).evenHeight / 2,
         (planarLayout u32 width height).evenHeight / 2] ∧
      (video_format_cb p width height).1._uPlaneOffset =
        (planarLayout u32 width height).offset_plane1 ∧
      (video_format_cb p width height).1._vPlaneOffset =
        (planarLayout u32 width height).offset_plane2 ∧
      (video_format_cb p width height).1._tmpFrameBuffer.length =
        (planarLayout u32 width height).totalSize := by
  have e1 := alignPitch_eq (u32 (width + (width &&& 1))) (u32_lt _)
  have e2 := alignPitch_eq (u32 (width + (width &&& 1)) / 2)
    (lt_of_le_of_lt (Nat.div_le_self _ _) (u32_lt _))
  refine ⟨?_, ?_, ?_, ?_, ?_⟩
  · simp only [video_format_cb, planarLayout, e1, e2]
  · simp only [video_format_cb, planarLayout]
  · simp only [video_format_cb, planarLayout, e1]
  · simp only [video_format_cb, planarLayout, e1, e2]
  · simp only [video_format_cb, planarLayout, length_resize, e1, e2]
    exact total_eq _ _ _

/-- The queue after `video_format_cb`: one item more, carrying the layout. -/
theorem format_queue (p : Player) (width height : Nat) :
    (video_format_cb p width height).1._asyncData =
      p._asyncData ++ [ProducerCall.item (.format width height)] := by
  have h := format_layout p width height
  obtain ⟨-, -, h3, h4, h5⟩ := h
  have h6 : (video_format_cb p width height).1._asyncData =
      p._asyncData ++ [AsyncData.I420FrameSetupData width height
        (video_format_cb p width height).1._uPlaneOffset
        (video_format_cb p width height).1._vPlaneOffset
        (u32 (video_format_cb p width height).1._tmpFrameBuffer.length)] := rfl
  rw [h6, h3, h4, h5, u32_of_lt (planarLayout_totalSize_lt _ _)]
  rfl

/-- Where the exact total size fits in 32 bits, no operation of the layout
algorithm wraps. -/
theorem layout_exact (width height : Nat) (hw : 0 < width) (hh : 0 < height)
    (ht : (planarLayout id width height).totalSize < 4294967296) :
    planarLayout u32 width height = planarLayout id width height := by
  simp only [planarLayout, id, Nat.and_one_is_mod] at ht ⊢
  have a0 : ∀ n, n ≤ align4 n := fun n => Nat.le_add_right _ _
  have hew : 1 ≤ width + width % 2 := by omega
  have heh : 2 ≤ height + height % 2 := by omega
  have heh2 : 1 ≤ (height + height % 2) / 2 := by omega
  have hp0 : 1 ≤ align4 (width + width % 2) := le_trans hew (a0 _)
  have hA1 : align4 (width + width % 2) ≤
      align4 (width + width % 2) * (height + height % 2) :=
    Nat.le_mul_of_pos_right _ (by omega)
  have hA2 : height + height % 2 ≤
      align4 (width + width % 2) * (height + height % 2) :=
    Nat.le_mul_of_pos_left _ (by omega)
  have hB1 : 2 * align4 ((width + width % 2) / 2) ≤
      2 * align4 ((width + width % 2) / 2) * ((height + height % 2) / 2) :=
    Nat.le_mul_of_pos_right _ (by omega)
  have hB2 : 2 * align4 ((width + width % 2) / 2) * ((height + height % 2) / 2) =
      2 * (align4 ((width + width % 2) / 2) * ((height + height % 2) / 2)) :=
    Nat.mul_assoc _ _ _
  have hew' := a0 (width + width % 2)
  have u1 : u32 (width + width % 2) = width + width % 2 := u32_of_lt (by omega)
  have u2 : u32 (height + height % 2) = height + height % 2 := u32_of_lt (by omega)
  have u3 : u32 (align4 (width + width % 2)) = align4 (width + width % 2) :=
    u32_of_lt (by omega)
  have u4 : u32 (align4 ((width + width % 2) / 2)) = align4 ((width + width % 2) / 2) :=
    u32_of_lt (by omega)
  have u5 : u32 (align4 (width + width % 2) * (height + height % 2)) =
      align4 (width + width % 2) * (height + height % 2) := u32_of_lt (by omega)
  have u6 : u32 (align4 ((width + width % 2) / 2) * ((height + height % 2) / 2)) =
      align4 ((width + width % 2) / 2) * ((height + height % 2) / 2) :=
    u32_of_lt (by omega)
  have u7 : u32 (2 * align4 ((width + width % 2) / 2)) =
      2 * align4 ((width + width % 2) / 2) := u32_of_lt (by omega)
  have u8 : u32 (2 * align4 ((width + width % 2) / 2) * ((height + height % 2) / 2)) =
      2 * align4 ((width + width % 2) / 2) * ((height + height % 2) / 2) :=
    u32_of_lt (by omega)
  simp only [u1, u2, u3, u4, u5, u6, u7, u8]
  have u9 : u32 (align4 (width + width % 2) * (height + height % 2) +
      align4 ((width + width % 2) / 2) * ((height + height % 2) / 2)) =
      align4 (width + width % 2) * (height + height % 2) +
      align4 ((width + width % 2) / 2) * ((height + height % 2) / 2) :=
    u32_of_lt (by omega)
  have u10 : u32 (align4 (width + width % 2) * (height + height % 2) +
      2 * align4 ((width + width % 2) / 2) * ((height + height % 2) / 2)) =
      align4 (width + width % 2) * (height + height % 2) +
      2 * align4 ((width + width % 2) / 2) * ((height + height % 2) / 2) :=
    u32_of_lt (by omega)
  simp only [u9, u10]

/-- On the integers the offsets of the layout algorithm are strictly increasing
and lie strictly inside the buffer. -/
theorem layout_id_increasing (width height : Nat) (hw : 0 < width) (hh : 0 < height) :
    0 < (planarLayout id width height).offset_plane1 ∧
      (planarLayout id width height).offset_plane1 <
        (planarLayout id width height).offset_plane2 ∧
      (planarLayout id width height).offset_plane2 <
        (planarLayout id width height).totalSize := by
  simp only [planarLayout, id, Nat.and_one_is_mod]
  have a0 : ∀ n, n ≤ align4 n := fun n => Nat.le_add_right _ _
  have a1 : 1 ≤ align4 ((width + width % 2) / 2) := le_trans (by omega) (a0 _)
  have hp0 : 1 ≤ align4 (width + width % 2) := le_trans (by omega) (a0 _)
  have hA : 0 < align4 (width + width % 2) * (height + height % 2) :=
    Nat.mul_pos hp0 (by omega)
  have hB : 0 < align4 ((width + width % 2) / 2) * ((height + height % 2) / 2) :=
    Nat.mul_pos a1 (by omega)
  have hB2 : 2 * align4 ((width + width % 2) / 2) * ((height + height % 2) / 2) =
      2 * (align4 ((width + width % 2) / 2) * ((height + height % 2) / 2)) :=
    Nat.mul_assoc _ _ _
  omega

/-- Where the exact total size fits in 32 bits, the offsets `video_format_cb`
stores are strictly increasing and lie strictly inside the scratch buffer. -/
theorem format_offsets_increasing_of_fits (p : Player) (width height : Nat)
    (hw : 0 < width) (hh : 0 < height)
    (ht : (planarLayout id width height).totalSize < 4294967296) :
    0 < (video_format_cb p width height).1._uPlaneOffset ∧
      (video_format_cb p width height).1._uPlaneOffset <
        (video_format_cb p width height).1._vPlaneOffset ∧
      (video_format_cb p width height).1._vPlaneOffset <
        (video_format_cb p width height).1._tmpFrameBuffer.length := by
  obtain ⟨-, -, h3, h4, h5⟩ := format_layout p width height
  rw [h3, h4, h5, layout_exact width height hw hh ht]
  exact layout_id_increasing width height hw hh


/-! ## Lemmas on the queue and on the processing of items -/

theorem callCallback_asyncData (callback : Callbacks_e) (list : InitializerList) (p : Player) :
    (callCallback callback list p)._asyncData = p._asyncData := by
  unfold callCallback
  split <;> rfl

theorem callCallback_tmpFrameBuffer (callback : Callbacks_e) (list : InitializerList)
    (p : Player) : (callCallback callback list p)._tmpFrameBuffer = p._tmpFrameBuffer := by
  unfold callCallback
  split <;> rfl

theorem callCallback_jsRawFrameBuffer (callback : Callbacks_e) (list : InitializerList)
    (p : Player) :
    (callCallback callback list p)._jsRawFrameBuffer = p._jsRawFrameBuffer := by
  unfold callCallback
  split <;> rfl

theorem callCallback_offsets (callback : Callbacks_e) (list : InitializerList) (p : Player) :
    (callCallback callback list p)._uPlaneOffset = p._uPlaneOffset ∧
      (callCallback callback list p)._vPlaneOffset = p._vPlaneOffset := by
  unfold callCallback
  split <;> exact ⟨rfl, rfl⟩

theorem LibvlcEvent_process_fields (e : libvlc_event_t) (p : Player) :
    (LibvlcEvent_process e p)._asyncData = p._asyncData ∧
      (LibvlcEvent_process e p)._tmpFrameBuffer = p._tmpFrameBuffer ∧
      (LibvlcEvent_process e p)._jsRawFrameBuffer = p._jsRawFrameBuffer := by
  simp only [LibvlcEvent_process]
  split
  · exact ⟨callCallback_asyncData _ _ _, callCallback_tmpFrameBuffer _ _ _,
      callCallback_jsRawFrameBuffer _ _ _⟩
  · exact ⟨rfl, rfl, rfl⟩

theorem process_asyncData (i : AsyncData) (p : Player) :
    (i.process p)._asyncData = p._asyncData := by
  cases i with
  | RV32FrameSetupData width height size =>
    simp only [AsyncData.process, setupBuffer_RV32]
    split
    · rfl
    · rw [callCallback_asyncData]
  | I420FrameSetupData width height u v size =>
    simp only [AsyncData.process, setupBuffer_I420]
    split
    · rfl
    · rw [callCallback_asyncData]
  | FrameUpdated => exact callCallback_asyncData _ _ _
  | CallbackData callback => exact callCallback_asyncData _ _ _
  | LibvlcEvent e => exact (LibvlcEvent_process_fields e p).1

theorem processAll_asyncData (items : List AsyncData) (p : Player) :
    (processAll items p)._asyncData = p._asyncData := by
  induction items generalizing p with
  | nil => rfl
  | cons i rest ih =>
    show (processAll rest (i.process p))._asyncData = p._asyncData
    rw [ih, process_asyncData]

theorem run_queue (c : ProducerCall) (p : Player) :
    (c.run p)._asyncData = p._asyncData ++ [c.item] := by
  cases c with
  | format width height => exact format_queue p width height
  | cleanup => rfl
  | display => rfl
  | event e => rfl

theorem runCalls_queue (calls : List ProducerCall) (p : Player) :
    (runCalls calls p)._asyncData = p._asyncData ++ calls.map ProducerCall.item := by
  induction calls generalizing p with
  | nil => simp [runCalls]
  | cons c rest ih =>
    show (runCalls rest (c.run p))._asyncData = _
    rw [ih, run_queue]
    simp

theorem handleAsync_nil (p : Player) :
    (handleAsync [] p).2 = p._asyncData ∧
      (handleAsync [] p).1 = processAll p._asyncData { p with _asyncData := [] } ∧
      (handleAsync [] p).1._asyncData = [] := by
  unfold handleAsync
  split
  · rename_i h
    have h0 : p._asyncData = [] := List.isEmpty_iff.mp h
    refine ⟨h0.symm, ?_, h0⟩
    rw [h0]
    cases p
    simp_all [processAll]
  · exact ⟨rfl, rfl, by rw [processAll_asyncData]⟩


/-! ## Lemmas on the buffers -/

/-- The pointers `video_lock_cb` writes, by cases on the two buffers. -/
theorem lock_planes (p : Player) :
    (video_lock_cb p).2 =
      [(if p._jsRawFrameBuffer ≠ CharPtr.nullptr then p._jsRawFrameBuffer
        else if p._tmpFrameBuffer.isEmpty then CharPtr.nullptr
        else ⟨Region.tmpFrameBuffer, 0⟩),
       (if p._jsRawFrameBuffer ≠ CharPtr.nullptr then p._jsRawFrameBuffer
        else if p._tmpFrameBuffer.isEmpty then CharPtr.nullptr
        else ⟨Region.tmpFrameBuffer, 0⟩).add p._uPlaneOffset,
       (if p._jsRawFrameBuffer ≠ CharPtr.nullptr then p._jsRawFrameBuffer
        else if p._tmpFrameBuffer.isEmpty then CharPtr.nullptr
        else ⟨Region.tmpFrameBuffer, 0⟩).add p._vPlaneOffset] := by
  unfold video_lock_cb
  by_cases h1 : p._tmpFrameBuffer.isEmpty = true <;>
    by_cases h2 : p._jsRawFrameBuffer = CharPtr.nullptr <;> simp [h1, h2]

/-- The state after `video_lock_cb`: only the scratch buffer can change, and it
is released exactly when a consumer buffer is attached. -/
theorem lock_state (p : Player) :
    (video_lock_cb p).1 =
      { p with _tmpFrameBuffer :=
          if p._jsRawFrameBuffer ≠ CharPtr.nullptr then [] else p._tmpFrameBuffer } := by
  obtain ⟨a, pf, t, u, v, f, r, c, ap, hp, j⟩ := p
  unfold video_lock_cb
  by_cases h1 : t.isEmpty = true
  · have h0 := List.isEmpty_iff.mp h1
    subst h0
    simp
  · by_cases h2 : r = CharPtr.nullptr
    · simp [h1, h2]
    · simp [h1, h2]

theorem setupBuffer_I420_attaches (width height u v size : Nat) (p : Player)
    (hw : width ≠ 0) (hh : height ≠ 0) :
    (setupBuffer_I420 width height u v size p)._jsRawFrameBuffer =
        ⟨Region.jsArrayData p.jsHeap.length, 0⟩ ∧
      (setupBuffer_I420 width height u v size p)._uPlaneOffset = p._uPlaneOffset ∧
      (setupBuffer_I420 width height u v size p)._vPlaneOffset = p._vPlaneOffset ∧
      (setupBuffer_I420 width height u v size p)._tmpFrameBuffer = p._tmpFrameBuffer := by
  simp only [setupBuffer_I420, hw, hh, or_self, if_false]
  refine ⟨?_, ?_, ?_, ?_⟩
  · rw [callCallback_jsRawFrameBuffer]
  · rw [(callCallback_offsets _ _ _).1]
  · rw [(callCallback_offsets _ _ _).2]
  · rw [callCallback_tmpFrameBuffer]


/-! ## C1 -/

/-- The values `video_format_cb` writes and stores are those of the layout
algorithm in the arithmetic of `unsigned`; for a non-zero width and height whose
total size on the integers fits in 32 bits, that is the layout algorithm on the
integers. -/
theorem video_format_cb_layout (p : Player) (width height : Nat)
    (hw : 0 < width) (hh : 0 < height) :
    (video_format_cb p width height).2.pitches =
        [(planarLayout u32 width height).pitch0, (planarLayout u32 width height).pitch1,
         (planarLayout u32 width height).pitch1] ∧
      (video_format_cb p width height).2.lines =
        [(planarLayout u32 width height).evenHeight,
         (planarLayout u32 width height).evenHeight / 2,
         (planarLayout u32 width height).evenHeight / 2] ∧
      (video_format_cb p width height).1._uPlaneOffset =
        (planarLayout u32 width height).offset_plane1 ∧
      (video_format_cb p width height).1._vPlaneOffset =
        (planarLayout u32 width height).offset_plane2 ∧
      (video_format_cb p width height).1._tmpFrameBuffer.length =
        (planarLayout u32 width height).totalSize ∧
      ((planarLayout id width height).totalSize < 4294967296 →
        planarLayout u32 width height = planarLayout id width height) := by
  obtain ⟨h1, h2, h3, h4, h5⟩ := format_layout p width height
  exact ⟨h1, h2, h3, h4, h5, layout_exact width height hw hh⟩

/-- At `negotiate(640, 480)` nothing wraps: pitches 640, 320, 320, lines 480, 240,
240, offsets 307200 and 384000, total size 460800. -/
theorem video_format_cb_layout_640_480 :
    (0 < 640 ∧ 0 < 480) ∧
      (video_format_cb Player.init 640 480).2.pitches = [640, 320, 320] ∧
      (video_format_cb Player.init 640 480).2.lines = [480, 240, 240] ∧
      (video_format_cb Player.init 640 480).1._uPlaneOffset = 307200 ∧
      (video_format_cb Player.init 640 480).1._vPlaneOffset = 384000 ∧
      (video_format_cb Player.init 640 480).1._tmpFrameBuffer.length = 460800 ∧
      planarLayout id 640 480 = ⟨640, 480, 640, 320, 307200, 384000, 460800⟩ := by
  obtain ⟨h1, h2, h3, h4, h5, h6⟩ :=
    video_format_cb_layout Player.init 640 480 (by decide) (by decide)
  have e : planarLayout id 640 480 = ⟨640, 480, 640, 320, 307200, 384000, 460800⟩ := by
    decide
  have e2 := h6 (by rw [e]; decide)
  rw [e] at e2
  rw [e2] at h1 h2 h3 h4 h5
  exact ⟨⟨by decide, by decide⟩, h1, h2, h3, h4, h5, e⟩

/-- C1, at the failing inputs.  At `video_format_cb(65536, 65536)` the formulas of
the claim give `offset_plane1 = 4294967296`, `offset_plane2 = 5368709120` and
`totalSize = 6442450944`, but the code, computing in `unsigned`, stores the
offsets 0 and 1073741824 and sizes the scratch buffer to 2147483648 bytes.  At
`video_format_cb(4294967294, 2)` the claim gives `pitches[0] =
align4(4294967294) = 4294967296`, but the code writes `pitches[0] = 0`. -/
theorem video_format_cb_layout_wraps (p : Player) :
    (planarLayout id 65536 65536 =
          ⟨65536, 65536, 65536, 32768, 4294967296, 5368709120, 6442450944⟩ ∧
        (video_format_cb p 65536 65536).2.pitches = [65536, 32768, 32768] ∧
        (video_format_cb p 65536 65536).2.lines = [65536, 32768, 32768] ∧
        (video_format_cb p 65536 65536).1._uPlaneOffset = 0 ∧
        (video_format_cb p 65536 65536).1._vPlaneOffset = 1073741824 ∧
        (video_format_cb p 65536 65536).1._tmpFrameBuffer.length = 2147483648) ∧
      ((planarLayout id 4294967294 2).pitch0 = 4294967296 ∧
        align4 4294967294 = 4294967296 ∧
        (video_format_cb p 4294967294 2).2.pitches = [0, 2147483648, 2147483648] ∧
        (video_format_cb p 4294967294 2).1._uPlaneOffset = 0 ∧
        (video_format_cb p 4294967294 2).1._tmpFrameBuffer.length = 0) := by
  obtain ⟨a1, a2, a3, a4, a5⟩ := format_layout p 65536 65536
  obtain ⟨b1, -, b3, -, b5⟩ := format_layout p 4294967294 2
  have ea : planarLayout u32 65536 65536 =
      ⟨65536, 65536, 65536, 32768, 0, 1073741824, 2147483648⟩ := by decide
  have eb : planarLayout u32 4294967294 2 =
      ⟨4294967294, 2, 0, 2147483648, 0, 2147483648, 0⟩ := by decide
  rw [ea] at a1 a2 a3 a4 a5
  rw [eb] at b1 b3 b5
  exact ⟨⟨by decide, a1, a2, a3, a4, a5⟩, ⟨by decide, by decide, b1, b3, b5⟩⟩

/-! ## C2 -/

/-- C2, at the failing input `video_format_cb(65536, 65536)`: the product
`pitches[0] * lines[0] = 65536 * 65536` wraps to 0, so the stored offsets are
`0` and `1073741824` and the scratch buffer has `2147483648` bytes; the first
offset is not positive, and the item enqueued fails the assertion of
`setupBuffer`. -/
theorem video_format_cb_offsets_wrap (p : Player) :
    (video_format_cb p 65536 65536).1._uPlaneOffset = 0 ∧
      (video_format_cb p 65536 65536).1._vPlaneOffset = 1073741824 ∧
      (video_format_cb p 65536 65536).1._tmpFrameBuffer.length = 2147483648 ∧
      ¬ (0 < (video_format_cb p 65536 65536).1._uPlaneOffset) ∧
      setupBuffer_I420_assert (video_format_cb p 65536 65536).1._uPlaneOffset
        (video_format_cb p 65536 65536).1._vPlaneOffset
        (u32 (video_format_cb p 65536 65536).1._tmpFrameBuffer.length) = false := by
  obtain ⟨-, -, h3, h4, h5⟩ := format_layout p 65536 65536
  have e : planarLayout u32 65536 65536 =
      ⟨65536, 65536, 65536, 32768, 0, 1073741824, 2147483648⟩ := by decide
  rw [e] at h3 h4 h5
  rw [h3, h4, h5]
  exact ⟨rfl, rfl, rfl, by decide, by decide⟩

/-! ## C3 -/

/-- C3. After `video_format_cb` returns, the scratch buffer has `totalSize` bytes
and the queue is the queue before the call followed by exactly one item: the
`I420FrameSetupData` carrying the given width and height, the stored offsets
(those of the layout algorithm) and `size = totalSize`. -/
theorem video_format_cb_effects (p : Player) (width height : Nat) :
    (video_format_cb p width height).1._tmpFrameBuffer.length =
        (planarLayout u32 width height).totalSize ∧
      (video_format_cb p width height).1._asyncData =
        p._asyncData ++
          [AsyncData.I420FrameSetupData width height
            (planarLayout u32 width height).offset_plane1
            (planarLayout u32 width height).offset_plane2
            (planarLayout u32 width height).totalSize] ∧
      (video_format_cb p width height).1._uPlaneOffset =
        (planarLayout u32 width height).offset_plane1 ∧
      (video_format_cb p width height).1._vPlaneOffset =
        (planarLayout u32 width height).offset_plane2 ∧
      (video_format_cb p width height).1._asyncData.length = p._asyncData.length + 1 := by
  obtain ⟨-, -, h3, h4, h5⟩ := format_layout p width height
  have hq := format_queue p width height
  refine ⟨h5, hq, h3, h4, ?_⟩
  rw [hq]
  simp

/-! ## C4 -/

/-- C4. After any sequence of producer calls, in any interleaving, the queue is
the queue before them followed by one item per call in call order; `handleAsync`
then calls `process` on exactly the items of the queue, each once and in queue
order (so the items of each producer are processed in that producer's order),
its final state is the result of processing them in that order, and, nothing
being enqueued meanwhile, the queue is empty when it returns. -/
theorem handleAsync_processes_queue_in_order (p : Player) (calls : List ProducerCall) :
    (runCalls calls p)._asyncData = p._asyncData ++ calls.map ProducerCall.item ∧
      (handleAsync [] (runCalls calls p)).2 =
        p._asyncData ++ calls.map ProducerCall.item ∧
      (handleAsync [] (runCalls calls p)).2.length = p._asyncData.length + calls.length ∧
      (∀ thread : ProducerCall → Bool,
        ((calls.filter thread).map ProducerCall.item).Sublist
          (handleAsync [] (runCalls calls p)).2) ∧
      (handleAsync [] (runCalls calls p)).1 =
        processAll (p._asyncData ++ calls.map ProducerCall.item)
          { runCalls calls p with _asyncData := [] } ∧
      (handleAsync [] (runCalls calls p)).1._asyncData = [] := by
  obtain ⟨h1, h2, h3⟩ := handleAsync_nil (runCalls calls p)
  have hq := runCalls_queue calls p
  refine ⟨hq, by rw [h1, hq], by rw [h1, hq]; simp, ?_, by rw [h2, hq], h3⟩
  intro thread
  rw [h1, hq]
  exact List.Sublist.trans (List.Sublist.map _ (List.filter_sublist _))
    (List.sublist_append_right _ _)

/-! ## C5 -/

/-- C5, as stated, fails in the freshly constructed player: neither buffer
exists, and `video_lock_cb` writes three null pointers, not pointers into the
scratch buffer. -/
theorem video_lock_cb_without_buffer :
    (video_lock_cb Player.init).2 = [CharPtr.nullptr, CharPtr.nullptr, CharPtr.nullptr] ∧
      (video_lock_cb Player.init).2 ≠
        [specLockBase Player.init,
         (specLockBase Player.init).add Player.init._uPlaneOffset,
         (specLockBase Player.init).add Player.init._vPlaneOffset] := by
  decide

/-- C5, amended. In every state `video_lock_cb` writes the pointers `base`,
`base + _uPlaneOffset` and `base + _vPlaneOffset`, where `base` is the consumer
buffer if one is attached, otherwise the scratch buffer if it is not empty, and
otherwise null; so whenever one of the two buffers exists the base is the one the
specification names.  After the processing of an `I420FrameSetupData` item with
non-zero width and height, the next `video_lock_cb` writes pointers into the
array that processing created. -/
theorem video_lock_cb_planes (p : Player) :
    (∃ base : CharPtr,
        base = (if p._jsRawFrameBuffer ≠ CharPtr.nullptr then p._jsRawFrameBuffer
          else if p._tmpFrameBuffer.isEmpty then CharPtr.nullptr
          else ⟨Region.tmpFrameBuffer, 0⟩) ∧
        (video_lock_cb p).2 =
          [base, base.add p._uPlaneOffset, base.add p._vPlaneOffset]) ∧
      (consumerAttached p = true ∨ scratchExists p = true →
        (video_lock_cb p).2 =
          [specLockBase p, (specLockBase p).add p._uPlaneOffset,
           (specLockBase p).add p._vPlaneOffset]) ∧
      (∀ width height u v size : Nat, width ≠ 0 → height ≠ 0 →
        (video_lock_cb
            ((AsyncData.I420FrameSetupData width height u v size).process p)).2 =
          [⟨Region.jsArrayData p.jsHeap.length, 0⟩,
           ⟨Region.jsArrayData p.jsHeap.length, p._uPlaneOffset⟩,
           ⟨Region.jsArrayData p.jsHeap.length, p._vPlaneOffset⟩]) := by
  refine ⟨⟨_, rfl, lock_planes p⟩, ?_, ?_⟩
  · intro h
    rw [lock_planes]
    unfold specLockBase consumerAttached
    unfold consumerAttached scratchExists at h
    by_cases h2 : p._jsRawFrameBuffer = CharPtr.nullptr
    · simp [h2] at h
      simp [h2, h]
    · simp [h2]
  · intro width height u v size hw hh
    obtain ⟨e1, e2, e3, -⟩ := setupBuffer_I420_attaches width height u v size p hw hh
    rw [lock_planes]
    simp only [AsyncData.process, e1, e2, e3]
    simp [CharPtr.nullptr, CharPtr.add]

/-- C5 amended, at the player after `video_format_cb(2, 2)`: the item it
enqueued is processed and the next `video_lock_cb` points into the new array. -/
theorem video_lock_cb_planes_after_attach :
    ((2 : Nat) ≠ 0 ∧ (2 : Nat) ≠ 0) ∧
      (video_lock_cb
          ((AsyncData.I420FrameSetupData 2 2 8 12 16).process
            (video_format_cb Player.init 2 2).1)).2 =
        [⟨Region.jsArrayData 0, 0⟩, ⟨Region.jsArrayData 0, 8⟩,
         ⟨Region.jsArrayData 0, 12⟩] :=
  ⟨⟨by decide, by decide⟩,
    (video_lock_cb_planes (video_format_cb Player.init 2 2).1).2.2 2 2 8 12 16
      (by decide) (by decide)⟩

/-! ## C6 -/

/-- C6, as stated, fails when a consumer buffer is attached: after
`video_format_cb(2, 2)`, a drain and a lock the player is in `ConsumerAttached`;
`video_cleanup_cb` leaves the consumer buffer attached, so the state is not
`NoBuffer`, and a following `video_format_cb(2, 2)` does not lead to
`ScratchOnly`. -/
theorem video_cleanup_cb_keeps_consumer_buffer :
    bufferState (runSteps [.negotiate 2 2, .drain, .lock] Player.init) =
        BufferState.ConsumerAttached ∧
      consumerAttached
          (video_cleanup_cb (runSteps [.negotiate 2 2, .drain, .lock] Player.init)) = true ∧
      bufferState
          (video_cleanup_cb (runSteps [.negotiate 2 2, .drain, .lock] Player.init)) ≠
        BufferState.NoBuffer ∧
      bufferState
          (runSteps [.negotiate 2 2, .drain, .lock, .cleanup, .negotiate 2 2] Player.init) ≠
        BufferState.ScratchOnly := by
  decide

/-- C6, amended. From every state `video_cleanup_cb` releases the scratch buffer
and appends exactly one `CB_FrameCleanup` item to the queue; it leaves the
consumer-buffer reference as it was.  The state after it is `NoBuffer` if no
consumer buffer was attached and `ConsumerAttached` otherwise, and after a
following `video_format_cb` the scratch buffer has the negotiated size and the
consumer-buffer reference is still the one from before the cleanup. -/
theorem video_cleanup_cb_effects (p : Player) :
    (video_cleanup_cb p)._tmpFrameBuffer = [] ∧
      (video_cleanup_cb p)._asyncData =
        p._asyncData ++ [AsyncData.CallbackData Callbacks_e.CB_FrameCleanup] ∧
      (video_cleanup_cb p)._jsRawFrameBuffer = p._jsRawFrameBuffer ∧
      bufferState (video_cleanup_cb p) =
        (if consumerAttached p then BufferState.ConsumerAttached
         else BufferState.NoBuffer) ∧
      (∀ width height : Nat,
        (video_format_cb (video_cleanup_cb p) width height).1._tmpFrameBuffer.length =
            (planarLayout u32 width height).totalSize ∧
          (video_format_cb (video_cleanup_cb p) width height).1._jsRawFrameBuffer =
            p._jsRawFrameBuffer) := by
  have h1 : (video_cleanup_cb p)._tmpFrameBuffer = [] := by
    unfold video_cleanup_cb
    by_cases h : p._tmpFrameBuffer.isEmpty = true
    · simp [h, List.isEmpty_iff.mp h]
    · simp [h]
  refine ⟨h1, rfl, rfl, ?_, ?_⟩
  · unfold bufferState scratchExists
    rw [h1]
    have : consumerAttached (video_cleanup_cb p) = consumerAttached p := rfl
    rw [this]
    simp
  · intro width height
    exact ⟨(format_layout _ width height).2.2.2.2, rfl⟩

/-! ## C7 -/

/-- C7, as stated, fails: `video_format_cb(0, 7)` on the fresh player appends an
item to the queue, and `video_format_cb(0, 7)` and `video_format_cb(7, 0)` after
`video_format_cb(2, 2)` empty the scratch buffer of 16 bytes and overwrite the
stored plane offsets 8 and 12 with 0. -/
theorem video_format_cb_zero_geometry_not_noop :
    (video_format_cb Player.init 0 7).1._asyncData =
        [AsyncData.I420FrameSetupData 0 7 0 0 0] ∧
      (video_format_cb Player.init 0 7).1._asyncData ≠ Player.init._asyncData ∧
      ((video_format_cb Player.init 2 2).1._tmpFrameBuffer.length = 16 ∧
        (video_format_cb Player.init 2 2).1._uPlaneOffset = 8 ∧
        (video_format_cb Player.init 2 2).1._vPlaneOffset = 12) ∧
      ((video_format_cb (video_format_cb Player.init 2 2).1 0 7).1._tmpFrameBuffer = [] ∧
        (video_format_cb (video_format_cb Player.init 2 2).1 0 7).1._uPlaneOffset = 0 ∧
        (video_format_cb (video_format_cb Player.init 2 2).1 0 7).1._vPlaneOffset = 0) ∧
      ((video_format_cb (video_format_cb Player.init 2 2).1 7 0).1._tmpFrameBuffer = [] ∧
        (video_format_cb (video_format_cb Player.init 2 2).1 7 0).1._uPlaneOffset = 0 ∧
        (video_format_cb (video_format_cb Player.init 2 2).1 7 0).1._vPlaneOffset = 0) := by
  decide

theorem format_zero_width (p : Player) (H : Nat) :
    (video_format_cb p 0 H).1._tmpFrameBuffer = [] ∧
      (video_format_cb p 0 H).1._uPlaneOffset = 0 ∧
      (video_format_cb p 0 H).1._vPlaneOffset = 0 ∧
      (video_format_cb p 0 H).1._asyncData =
        p._asyncData ++ [AsyncData.I420FrameSetupData 0 H 0 0 0] := by
  simp [video_format_cb, alignPitch, u32, resize]

theorem format_zero_height (p : Player) (W : Nat) :
    (video_format_cb p W 0).1._tmpFrameBuffer = [] ∧
      (video_format_cb p W 0).1._uPlaneOffset = 0 ∧
      (video_format_cb p W 0).1._vPlaneOffset = 0 ∧
      (video_format_cb p W 0).1._asyncData =
        p._asyncData ++ [AsyncData.I420FrameSetupData W 0 0 0 0] := by
  simp [video_format_cb, u32, resize]

/-- C7, amended. For every H and W, `video_format_cb` called with (0, H) or with
(W, 0) allocates no scratch memory: it leaves the scratch buffer empty, sets both
stored plane offsets to 0, and appends exactly one `I420FrameSetupData` item
carrying that width and height, offsets 0 and size 0. -/
theorem video_format_cb_zero_geometry (p : Player) (W H : Nat) :
    ((video_format_cb p 0 H).1._tmpFrameBuffer = [] ∧
        (video_format_cb p 0 H).1._uPlaneOffset = 0 ∧
        (video_format_cb p 0 H).1._vPlaneOffset = 0 ∧
        (video_format_cb p 0 H).1._asyncData =
          p._asyncData ++ [AsyncData.I420FrameSetupData 0 H 0 0 0]) ∧
      ((video_format_cb p W 0).1._tmpFrameBuffer = [] ∧
        (video_format_cb p W 0).1._uPlaneOffset = 0 ∧
        (video_format_cb p W 0).1._vPlaneOffset = 0 ∧
        (video_format_cb p W 0).1._asyncData =
          p._asyncData ++ [AsyncData.I420FrameSetupData W 0 0 0 0]) :=
  ⟨format_zero_width p H, format_zero_height p W⟩

/-! ## C8 -/

/-- C8, as stated, fails for `video_lock_cb`: after `video_format_cb(2, 2)` and a
drain the scratch buffer has 16 bytes and a consumer buffer is attached, and
`video_lock_cb` empties the scratch buffer. -/
theorem video_lock_cb_releases_scratch :
    (runSteps [.negotiate 2 2, .drain] Player.init)._tmpFrameBuffer.length = 16 ∧
      consumerAttached (runSteps [.negotiate 2 2, .drain] Player.init) = true ∧
      (video_lock_cb (runSteps [.negotiate 2 2, .drain] Player.init)).1._tmpFrameBuffer = [] ∧
      (video_lock_cb (runSteps [.negotiate 2 2, .drain] Player.init)).1._tmpFrameBuffer ≠
        (runSteps [.negotiate 2 2, .drain] Player.init)._tmpFrameBuffer := by
  decide

/-- C8, amended. `video_unlock_cb` changes nothing; `video_display_cb` changes
neither buffer; `video_lock_cb` never changes the consumer-buffer reference and
changes the scratch buffer in one case only: it releases it when a consumer
buffer is attached.  The consumer-buffer reference is left unchanged by every
producer callback and by the processing of every item that is not a frame-setup
item, so a consumer buffer becomes attached only in the drain-time processing of
a frame-setup item. -/
theorem per_frame_callbacks_ownership (p : Player) :
    video_unlock_cb p = p ∧
      ((video_display_cb p)._tmpFrameBuffer = p._tmpFrameBuffer ∧
        (video_display_cb p)._jsRawFrameBuffer = p._jsRawFrameBuffer) ∧
      ((video_lock_cb p).1._jsRawFrameBuffer = p._jsRawFrameBuffer ∧
        (video_lock_cb p).1._tmpFrameBuffer =
          (if consumerAttached p then [] else p._tmpFrameBuffer)) ∧
      (∀ c : ProducerCall, (c.run p)._jsRawFrameBuffer = p._jsRawFrameBuffer) ∧
      (AsyncData.FrameUpdated.process p)._jsRawFrameBuffer = p._jsRawFrameBuffer ∧
      (∀ callback : Callbacks_e,
        ((AsyncData.CallbackData callback).process p)._jsRawFrameBuffer =
          p._jsRawFrameBuffer) ∧
      (∀ e : libvlc_event_t,
        ((AsyncData.LibvlcEvent e).process p)._jsRawFrameBuffer = p._jsRawFrameBuffer) := by
  refine ⟨rfl, ⟨rfl, rfl⟩, ⟨?_, ?_⟩, ?_, ?_, ?_, ?_⟩
  · rw [lock_state]
  · rw [lock_state]
    simp [consumerAttached]
  · intro c
    cases c <;> rfl
  · exact callCallback_jsRawFrameBuffer _ _ _
  · intro callback
    exact callCallback_jsRawFrameBuffer _ _ _
  · intro e
    exact (LibvlcEvent_process_fields e p).2.2

/-! ## C9 -/

/-- C9, as stated, fails in reachable states: in the freshly constructed player
there is neither a scratch buffer nor a consumer buffer, and after
`video_format_cb(2, 2)` and a drain there are both. -/
theorem scratch_iff_no_consumer_fails :
    (scratchExists (runSteps [] Player.init) = false ∧
        consumerAttached (runSteps [] Player.init) = false) ∧
      (scratchExists (runSteps [.negotiate 2 2, .drain] Player.init) = true ∧
        consumerAttached (runSteps [.negotiate 2 2, .drain] Player.init) = true) ∧
      ¬ (scratchExists (runSteps [] Player.init) = true ↔
          consumerAttached (runSteps [] Player.init) = false) ∧
      ¬ (scratchExists (runSteps [.negotiate 2 2, .drain] Player.init) = true ↔
          consumerAttached (runSteps [.negotiate 2 2, .drain] Player.init) = false) := by
  decide

/-- C9, amended. In every state reached from the freshly constructed player by
any sequence of negotiate, lock, unlock, display, cleanup and drain steps, right
after a `video_lock_cb` the scratch buffer and a consumer buffer do not both
exist: if the scratch buffer is not empty, no consumer buffer is attached. -/
theorem scratch_excludes_consumer_after_lock (steps : List Step) :
    (scratchExists (video_lock_cb (runSteps steps Player.init)).1 &&
      consumerAttached (video_lock_cb (runSteps steps Player.init)).1) = false := by
  rw [lock_state]
  unfold scratchExists consumerAttached
  by_cases h : (runSteps steps Player.init)._jsRawFrameBuffer = CharPtr.nullptr <;>
    simp [h]

/-! ## C10 -/

/-- The method `LibvlcEvent::process` makes the call `LibvlcEvent_call` when the
kind is mapped and a function is registered for it, and does nothing otherwise. -/
theorem LibvlcEvent_process_eq (e : libvlc_event_t) (p : Player) :
    LibvlcEvent_process e p =
      if (LibvlcEvent_switch e).1 ≠ Callbacks_e.CB_Max ∧
          p._jsCallbacks (LibvlcEvent_switch e).1 = true then
        { p with jsCalls := p.jsCalls ++ [LibvlcEvent_call e] }
      else p := by
  by_cases h1 : (LibvlcEvent_switch e).1 = Callbacks_e.CB_Max
  · simp [LibvlcEvent_process, h1]
  · by_cases h2 : p._jsCallbacks (LibvlcEvent_switch e).1 = true
    · simp [LibvlcEvent_process, callCallback, LibvlcEvent_call, h1, h2]
    · simp [LibvlcEvent_process, callCallback, h1, h2]

/-- Processing a native event makes at most one consumer call and changes
nothing else; for the ten mapped kinds without payload the call has no argument,
and for a kind outside the table the state is unchanged. -/
theorem LibvlcEvent_process_calls (p : Player) (u : libvlc_event_u) :
    (∀ e : libvlc_event_t, ∃ calls : List (Callbacks_e × List JsValue),
        LibvlcEvent_process e p = { p with jsCalls := p.jsCalls ++ calls } ∧
        calls.length ≤ 1 ∧ (calls = [] ∨ calls = [LibvlcEvent_call e])) ∧
      (LibvlcEvent_call ⟨.libvlc_MediaPlayerMediaChanged, u⟩ =
          (.CB_MediaPlayerMediaChanged, []) ∧
        LibvlcEvent_call ⟨.libvlc_MediaPlayerNothingSpecial, u⟩ =
          (.CB_MediaPlayerNothingSpecial, []) ∧
        LibvlcEvent_call ⟨.libvlc_MediaPlayerOpening, u⟩ = (.CB_MediaPlayerOpening, []) ∧
        LibvlcEvent_call ⟨.libvlc_MediaPlayerPlaying, u⟩ = (.CB_MediaPlayerPlaying, []) ∧
        LibvlcEvent_call ⟨.libvlc_MediaPlayerPaused, u⟩ = (.CB_MediaPlayerPaused, []) ∧
        LibvlcEvent_call ⟨.libvlc_MediaPlayerStopped, u⟩ = (.CB_MediaPlayerStopped, []) ∧
        LibvlcEvent_call ⟨.libvlc_MediaPlayerForward, u⟩ = (.CB_MediaPlayerForward, []) ∧
        LibvlcEvent_call ⟨.libvlc_MediaPlayerBackward, u⟩ = (.CB_MediaPlayerBackward, []) ∧
        LibvlcEvent_call ⟨.libvlc_MediaPlayerEndReached, u⟩ =
          (.CB_MediaPlayerEndReached, []) ∧
        LibvlcEvent_call ⟨.libvlc_MediaPlayerEncounteredError, u⟩ =
          (.CB_MediaPlayerEncounteredError, [])) ∧
      (∀ code : Nat, LibvlcEvent_process ⟨.other code, u⟩ p = p) := by
  have eta : { p with jsCalls := p.jsCalls ++ [] } = p := by
    cases p
    simp
  refine ⟨?_, ?_, ?_⟩
  · intro e
    rw [LibvlcEvent_process_eq]
    split
    · exact ⟨[LibvlcEvent_call e], rfl, by simp, Or.inr rfl⟩
    · exact ⟨[], eta.symm, by simp, Or.inl rfl⟩
  · exact ⟨rfl, rfl, rfl, rfl, rfl, rfl, rfl, rfl, rfl, rfl⟩
  · intro code
    rw [LibvlcEvent_process_eq]
    simp [LibvlcEvent_switch]

/-- C10, at the failing input: an event of one of the six kinds with a payload,
a function being registered for its kind.  The `switch` assigns the braced list
holding the payload to `list`, so the backing array no longer exists when
`callCallback` copies `list`: the one argument of the call is read from a dead
array and is indeterminate, not the new cache level, time, position, flag or
length.  What reaches the consumer does not depend on the payload. -/
theorem LibvlcEvent_process_dangling_list (p : Player) (u u' : libvlc_event_u) :
    ((LibvlcEvent_switch ⟨.libvlc_MediaPlayerBuffering, u⟩).2 =
          ⟨[.number (.ofFloat u.new_cache)], false⟩ ∧
        (LibvlcEvent_switch ⟨.libvlc_MediaPlayerTimeChanged, u⟩).2 =
          ⟨[.number (.ofInt64 u.new_time)], false⟩ ∧
        (LibvlcEvent_switch ⟨.libvlc_MediaPlayerPositionChanged, u⟩).2 =
          ⟨[.number (.ofFloat u.new_position)], false⟩ ∧
        (LibvlcEvent_switch ⟨.libvlc_MediaPlayerSeekableChanged, u⟩).2 =
          ⟨[.boolean (u.new_seekable != 0)], false⟩ ∧
        (LibvlcEvent_switch ⟨.libvlc_MediaPlayerPausableChanged, u⟩).2 =
          ⟨[.boolean (u.new_pausable != 0)], false⟩ ∧
        (LibvlcEvent_switch ⟨.libvlc_MediaPlayerLengthChanged, u⟩).2 =
          ⟨[.number (.ofInt64 u.new_length)], false⟩) ∧
      ((LibvlcEvent_process ⟨.libvlc_MediaPlayerBuffering, u⟩
            (setJsCallback .CB_MediaPlayerBuffering p)).jsCalls =
          p.jsCalls ++ [(.CB_MediaPlayerBuffering, [JsValue.indeterminate])] ∧
        (LibvlcEvent_process ⟨.libvlc_MediaPlayerTimeChanged, u⟩
            (setJsCallback .CB_MediaPlayerTimeChanged p)).jsCalls =
          p.jsCalls ++ [(.CB_MediaPlayerTimeChanged, [JsValue.indeterminate])] ∧
        (LibvlcEvent_process ⟨.libvlc_MediaPlayerPositionChanged, u⟩
            (setJsCallback .CB_MediaPlayerPositionChanged p)).jsCalls =
          p.jsCalls ++ [(.CB_MediaPlayerPositionChanged, [JsValue.indeterminate])] ∧
        (LibvlcEvent_process ⟨.libvlc_MediaPlayerSeekableChanged, u⟩
            (setJsCallback .CB_MediaPlayerSeekableChanged p)).jsCalls =
          p.jsCalls ++ [(.CB_MediaPlayerSeekableChanged, [JsValue.indeterminate])] ∧
        (LibvlcEvent_process ⟨.libvlc_MediaPlayerPausableChanged, u⟩
            (setJsCallback .CB_MediaPlayerPausableChanged p)).jsCalls =
          p.jsCalls ++ [(.CB_MediaPlayerPausableChanged, [JsValue.indeterminate])] ∧
        (LibvlcEvent_process ⟨.libvlc_MediaPlayerLengthChanged, u⟩
            (setJsCallback .CB_MediaPlayerLengthChanged p)).jsCalls =
          p.jsCalls ++ [(.CB_MediaPlayerLengthChanged, [JsValue.indeterminate])]) ∧
      (∀ k : libvlc_event_e, LibvlcEvent_process ⟨k, u⟩ p = LibvlcEvent_process ⟨k, u'⟩ p) ∧
      (LibvlcEvent_process ⟨.libvlc_MediaPlayerBuffering, ⟨7, 0, 0, 0, 0, 0⟩⟩
          (setJsCallback .CB_MediaPlayerBuffering Player.init)).jsCalls =
        [(.CB_MediaPlayerBuffering, [JsValue.indeterminate])] := by
  refine ⟨⟨rfl, rfl, rfl, rfl, rfl, rfl⟩, ?_, ?_, ?_⟩
  · refine ⟨?_, ?_, ?_, ?_, ?_, ?_⟩ <;>
      simp [LibvlcEvent_process_eq, LibvlcEvent_switch, LibvlcEvent_call, setJsCallback,
        InitializerList.assigned, InitializerList.toVector]
  · intro k
    rw [LibvlcEvent_process_eq, LibvlcEvent_process_eq]
    cases k <;> rfl
  · decide

/-! ## Lemmas on bursts of notifications -/

theorem run_fields (c : ProducerCall) (p : Player) :
    (c.run p).jsCalls = p.jsCalls ∧ (c.run p)._jsCallbacks = p._jsCallbacks ∧
      (c.run p)._jsFrameBuffer = p._jsFrameBuffer := by
  cases c <;> exact ⟨rfl, rfl, rfl⟩

theorem runCalls_fields (calls : List ProducerCall) (p : Player) :
    (runCalls calls p).jsCalls = p.jsCalls ∧
      (runCalls calls p)._jsCallbacks = p._jsCallbacks ∧
      (runCalls calls p)._jsFrameBuffer = p._jsFrameBuffer := by
  induction calls generalizing p with
  | nil => exact ⟨rfl, rfl, rfl⟩
  | cons c rest ih =>
    obtain ⟨h1, h2, h3⟩ := ih (c.run p)
    obtain ⟨g1, g2, g3⟩ := run_fields c p
    exact ⟨h1.trans g1, h2.trans g2, h3.trans g3⟩

theorem drain_eq (p : Player) :
    drain p = processAll p._asyncData { p with asyncPending := false, _asyncData := [] } :=
  (handleAsync_nil { p with asyncPending := false }).2.1

theorem processAll_cons (i : AsyncData) (rest : List AsyncData) (p : Player) :
    processAll (i :: rest) p = processAll rest (i.process p) := rfl

theorem processAll_frameUpdated (N : Nat) (q : Player)
    (h : q._jsCallbacks Callbacks_e.CB_FrameReady = true) :
    processAll (List.replicate N AsyncData.FrameUpdated) q =
      { q with jsCalls :=
          q.jsCalls ++ List.replicate N (Callbacks_e.CB_FrameReady, [q._jsFrameBuffer]) } := by
  induction N generalizing q with
  | zero =>
    cases q
    simp [processAll]
  | succ n ih =>
    have hf : AsyncData.FrameUpdated.process q =
        { q with jsCalls := q.jsCalls ++ [(Callbacks_e.CB_FrameReady, [q._jsFrameBuffer])] } := by
      simp [AsyncData.process, frameUpdated, callCallback, h, InitializerList.argument,
        InitializerList.toVector]
    rw [List.replicate_succ, processAll_cons, hf,
      ih { q with jsCalls := q.jsCalls ++ [(Callbacks_e.CB_FrameReady, [q._jsFrameBuffer])] } h]
    simp [List.replicate_succ]

theorem processAll_events (es : List libvlc_event_t) (q : Player)
    (h : ∀ e ∈ es, (LibvlcEvent_switch e).1 ≠ Callbacks_e.CB_Max ∧
      q._jsCallbacks (LibvlcEvent_switch e).1 = true) :
    processAll (es.map AsyncData.LibvlcEvent) q =
      { q with jsCalls := q.jsCalls ++ es.map LibvlcEvent_call } := by
  induction es generalizing q with
  | nil =>
    cases q
    simp [processAll]
  | cons e rest ih =>
    obtain ⟨h1, h2⟩ := h e (List.mem_cons_self _ _)
    have hf : (AsyncData.LibvlcEvent e).process q =
        { q with jsCalls := q.jsCalls ++ [LibvlcEvent_call e] } := by
      simp [AsyncData.process, LibvlcEvent_process_eq, h1, h2]
    rw [List.map_cons, processAll_cons, hf,
      ih { q with jsCalls := q.jsCalls ++ [LibvlcEvent_call e] }
        (fun e' he' => h e' (List.mem_cons_of_mem _ he'))]
    simp

theorem switch_ne_max (e : libvlc_event_t) (h : ∀ code, e.type ≠ libvlc_event_e.other code) :
    (LibvlcEvent_switch e).1 ≠ Callbacks_e.CB_Max := by
  obtain ⟨t, u⟩ := e
  cases t <;> simp [LibvlcEvent_switch] at h ⊢

theorem switch_fst_congr (e e' : libvlc_event_t) (h : e.type = e'.type) :
    (LibvlcEvent_switch e).1 = (LibvlcEvent_switch e').1 := by
  obtain ⟨t, u⟩ := e
  obtain ⟨t', u'⟩ := e'
  simp only at h
  subst h
  cases t <;> rfl

/-! ## C11 -/

/-- C11. Starting from an empty queue, N calls of `video_display_cb` append
exactly N `FrameUpdated` items, and the drain calls `process` on exactly these N
items and, a function being registered for `CB_FrameReady`, calls it exactly N
times.  Likewise N calls of `media_player_event` append exactly N items in call
order, and for events of one mapped kind, a function being registered for that
kind, the drain calls that function exactly N times, once per event and in call
order: with no argument for the ten kinds without payload, and with the one
argument `callCallback` reads from the list the `switch` left for the six kinds
with a payload. -/
theorem notifications_not_batched (p : Player) (N : Nat) (es : List libvlc_event_t)
    (hq : p._asyncData = []) :
    ((runCalls (List.replicate N ProducerCall.display) p)._asyncData =
          List.replicate N AsyncData.FrameUpdated ∧
        (runCalls (List.replicate N ProducerCall.display) p)._asyncData.length = N ∧
        (handleAsync [] (runCalls (List.replicate N ProducerCall.display) p)).2 =
          List.replicate N AsyncData.FrameUpdated ∧
        (p._jsCallbacks Callbacks_e.CB_FrameReady = true →
          (drain (runCalls (List.replicate N ProducerCall.display) p)).jsCalls =
              p.jsCalls ++
                List.replicate N (Callbacks_e.CB_FrameReady, [p._jsFrameBuffer]) ∧
            (drain (runCalls (List.replicate N ProducerCall.display) p)).jsCalls.length =
              p.jsCalls.length + N)) ∧
      ((runCalls (es.map ProducerCall.event) p)._asyncData =
          es.map AsyncData.LibvlcEvent ∧
        (runCalls (es.map ProducerCall.event) p)._asyncData.length = es.length ∧
        (handleAsync [] (runCalls (es.map ProducerCall.event) p)).2 =
          es.map AsyncData.LibvlcEvent ∧
        (∀ k : libvlc_event_e, (∀ code, k ≠ libvlc_event_e.other code) →
          (∀ e ∈ es, e.type = k) →
          (∀ e ∈ es, p._jsCallbacks (LibvlcEvent_switch e).1 = true) →
          (drain (runCalls (es.map ProducerCall.event) p)).jsCalls =
              p.jsCalls ++ es.map LibvlcEvent_call ∧
            (drain (runCalls (es.map ProducerCall.event) p)).jsCalls.length =
              p.jsCalls.length + es.length ∧
            (∀ e ∈ es, ∀ e' ∈ es, (LibvlcEvent_call e).1 = (LibvlcEvent_call e').1))) := by
  have qd : (runCalls (List.replicate N ProducerCall.display) p)._asyncData =
      List.replicate N AsyncData.FrameUpdated := by
    rw [runCalls_queue, hq]
    simp [ProducerCall.item]
  have qe : (runCalls (es.map ProducerCall.event) p)._asyncData =
      es.map AsyncData.LibvlcEvent := by
    rw [runCalls_queue, hq]
    simp [ProducerCall.item, Function.comp_def]
  refine ⟨⟨qd, by rw [qd]; simp, by rw [(handleAsync_nil _).1, qd], ?_⟩,
    ⟨qe, by rw [qe]; simp, by rw [(handleAsync_nil _).1, qe], ?_⟩⟩
  · intro hreg
    obtain ⟨f1, f2, f3⟩ := runCalls_fields (List.replicate N ProducerCall.display) p
    have e : (drain (runCalls (List.replicate N ProducerCall.display) p)).jsCalls =
        p.jsCalls ++ List.replicate N (Callbacks_e.CB_FrameReady, [p._jsFrameBuffer]) := by
      rw [drain_eq, qd, processAll_frameUpdated N _ (by simpa [f2] using hreg)]
      simp [f1, f3]
    exact ⟨e, by rw [e]; simp⟩
  · intro k hk hes hreg
    obtain ⟨f1, f2, f3⟩ := runCalls_fields (es.map ProducerCall.event) p
    have e : (drain (runCalls (es.map ProducerCall.event) p)).jsCalls =
        p.jsCalls ++ es.map LibvlcEvent_call := by
      rw [drain_eq, qe, processAll_events es _ (fun e he =>
        ⟨switch_ne_max e (by rw [hes e he]; exact hk), by simpa [f2] using hreg e he⟩)]
      simp [f1]
    refine ⟨e, by rw [e]; simp, ?_⟩
    intro e1 h1 e2 h2
    exact switch_fst_congr e1 e2 (by rw [hes e1 h1, hes e2 h2])

/-- C11 at a burst of 1000 calls of `video_display_cb` on the fresh player with a
function registered for `CB_FrameReady`: the drain calls it 1000 times; at two
Playing events with a function registered for `CB_MediaPlayerPlaying`: the drain
calls it twice; and at two Buffering events with a function registered for
`CB_MediaPlayerBuffering`: the drain calls it twice, each time with one
indeterminate argument. -/
theorem notifications_not_batched_burst_1000 :
    ((setJsCallback Callbacks_e.CB_FrameReady Player.init)._asyncData = [] ∧
        (setJsCallback Callbacks_e.CB_FrameReady Player.init)._jsCallbacks
          Callbacks_e.CB_FrameReady = true) ∧
      (runCalls (List.replicate 1000 ProducerCall.display)
          (setJsCallback Callbacks_e.CB_FrameReady Player.init))._asyncData.length = 1000 ∧
      (drain (runCalls (List.replicate 1000 ProducerCall.display)
          (setJsCallback Callbacks_e.CB_FrameReady Player.init))).jsCalls =
        List.replicate 1000 (Callbacks_e.CB_FrameReady, [JsValue.emptyHandle]) ∧
      (drain (runCalls
          ([⟨.libvlc_MediaPlayerPlaying, ⟨0, 0, 0, 0, 0, 0⟩⟩,
            ⟨.libvlc_MediaPlayerPlaying, ⟨0, 0, 0, 0, 0, 0⟩⟩].map ProducerCall.event)
          (setJsCallback Callbacks_e.CB_MediaPlayerPlaying Player.init))).jsCalls =
        [(Callbacks_e.CB_MediaPlayerPlaying, []), (Callbacks_e.CB_MediaPlayerPlaying, [])] ∧
      (drain (runCalls
          ([⟨.libvlc_MediaPlayerBuffering, ⟨7, 0, 0, 0, 0, 0⟩⟩,
            ⟨.libvlc_MediaPlayerBuffering, ⟨9, 0, 0, 0, 0, 0⟩⟩].map ProducerCall.event)
          (setJsCallback Callbacks_e.CB_MediaPlayerBuffering Player.init))).jsCalls =
        [(Callbacks_e.CB_MediaPlayerBuffering, [JsValue.indeterminate]),
         (Callbacks_e.CB_MediaPlayerBuffering, [JsValue.indeterminate])] :=
  ⟨⟨rfl, rfl⟩,
    (notifications_not_batched (setJsCallback Callbacks_e.CB_FrameReady Player.init)
      1000 [] rfl).1.2.1,
    ((notifications_not_batched (setJsCallback Callbacks_e.CB_FrameReady Player.init)
      1000 [] rfl).1.2.2.2 rfl).1,
    ((notifications_not_batched (setJsCallback Callbacks_e.CB_MediaPlayerPlaying Player.init)
      0 [⟨.libvlc_MediaPlayerPlaying, ⟨0, 0, 0, 0, 0, 0⟩⟩,
         ⟨.libvlc_MediaPlayerPlaying, ⟨0, 0, 0, 0, 0, 0⟩⟩] rfl).2.2.2.2
      libvlc_event_e.libvlc_MediaPlayerPlaying (fun _ h => by cases h)
      (by decide) (by decide)).1,
    ((notifications_not_batched (setJsCallback Callbacks_e.CB_MediaPlayerBuffering Player.init)
      0 [⟨.libvlc_MediaPlayerBuffering, ⟨7, 0, 0, 0, 0, 0⟩⟩,
         ⟨.libvlc_MediaPlayerBuffering, ⟨9, 0, 0, 0, 0, 0⟩⟩] rfl).2.2.2.2
      libvlc_event_e.libvlc_MediaPlayerBuffering (fun _ h => by cases h)
      (by decide) (by decide)).1⟩

/-! ## C12 -/

theorem alignPitch_mod_four (n : Nat) : alignPitch n % 4 = 0 := by
  unfold alignPitch u32
  split <;> omega

/-- C12. For every width (and height), each of the three pitches `video_format_cb`
writes is a multiple of 4, so the condition asserted after the pitches are
written holds.  At `negotiate(641, 481)`: `evenWidth = 642`, `evenHeight = 482`,
`pitch0 = 644`, `pitch1 = align4(321) = 324`. -/
theorem video_format_cb_pitches_multiple_of_four (p : Player) (width height : Nat) :
    video_format_cb_assert (video_format_cb p width height).2 = true ∧
      (∀ x ∈ (video_format_cb p width height).2.pitches, x % 4 = 0) ∧
      (video_format_cb p width height).2.pitches.length = 3 ∧
      ((video_format_cb p 641 481).2.pitches = [644, 324, 324] ∧
        (video_format_cb p 641 481).2.lines = [482, 241, 241] ∧
        (planarLayout u32 641 481).evenWidth = 642 ∧
        (planarLayout u32 641 481).evenHeight = 482 ∧
        (planarLayout u32 641 481).pitch0 = 644 ∧
        (planarLayout u32 641 481).pitch1 = 324 ∧
        align4 321 = 324) := by
  have h0 := alignPitch_mod_four (u32 (width + (width &&& 1)))
  have h1 := alignPitch_mod_four (u32 (width + (width &&& 1)) / 2)
  refine ⟨?_, ?_, rfl, ?_⟩
  · simp only [video_format_cb_assert, video_format_cb, List.all_cons, List.all_nil, h0, h1]
    rfl
  · intro x hx
    simp only [video_format_cb, List.mem_cons, List.mem_singleton, List.not_mem_nil,
      or_false, or_self] at hx
    rcases hx with rfl | rfl
    · exact h0
    · exact h1
  · obtain ⟨e1, e2, -, -, -⟩ := format_layout p 641 481
    have e : planarLayout u32 641 481 = ⟨642, 482, 644, 324, 310408, 388492, 466576⟩ := by
      decide
    rw [e] at e1 e2
    exact ⟨e1, e2, by rw [e], by rw [e], by rw [e], by rw [e], by decide⟩

/-! ## C13 -/

/-- C13, as stated, fails when the packed format is configured: with
`_pixelFormat = RV32`, `video_format_cb(4, 2)` writes the chroma `I420` and the
three pitches 4, 4, 4 instead of the single pitch 16, sizes the scratch buffer to
16 bytes instead of 32, and enqueues an item with the plane offsets 8 and 12. -/
theorem video_format_cb_ignores_packed_format :
    specNegotiate PixelFormat.RV32 4 2 =
        ⟨[16], 32, AsyncData.RV32FrameSetupData 4 2 32⟩ ∧
      (video_format_cb { Player.init with _pixelFormat := PixelFormat.RV32 } 4 2).2.chroma =
        "I420" ∧
      (video_format_cb { Player.init with _pixelFormat := PixelFormat.RV32 } 4 2).2.pitches =
        [4, 4, 4] ∧
      (video_format_cb { Player.init with _pixelFormat := PixelFormat.RV32 } 4 2).2.pitches ≠
        (specNegotiate PixelFormat.RV32 4 2).pitches ∧
      (video_format_cb
          { Player.init with _pixelFormat := PixelFormat.RV32 } 4 2).1._tmpFrameBuffer.length =
        16 ∧
      (video_format_cb
          { Player.init with _pixelFormat := PixelFormat.RV32 } 4 2).1._tmpFrameBuffer.length ≠
        (specNegotiate PixelFormat.RV32 4 2).totalSize ∧
      (video_format_cb { Player.init with _pixelFormat := PixelFormat.RV32 } 4 2).1._asyncData =
        [AsyncData.I420FrameSetupData 4 2 8 12 16] ∧
      (video_format_cb { Player.init with _pixelFormat := PixelFormat.RV32 } 4 2).1._asyncData ≠
        [(specNegotiate PixelFormat.RV32 4 2).item] := by
  decide

/-- C13, amended. Negotiation does not read the configured pixel format: for
every configured format and every width and height, `video_format_cb` writes the
chroma `I420`, produces the three-plane layout of the planar format, sizes the
scratch buffer to its total size and enqueues the item with the two plane
offsets; the configured format is left as it was. -/
theorem video_format_cb_always_planar (p : Player) (width height : Nat) :
    (video_format_cb p width height).2.chroma = "I420" ∧
      (video_format_cb p width height).2.pitches =
        (specNegotiate PixelFormat.I420 width height).pitches ∧
      (video_format_cb p width height).1._tmpFrameBuffer.length =
        (specNegotiate PixelFormat.I420 width height).totalSize ∧
      (video_format_cb p width height).1._asyncData =
        p._asyncData ++ [(specNegotiate PixelFormat.I420 width height).item] ∧
      (video_format_cb p width height).1._pixelFormat = p._pixelFormat := by
  obtain ⟨h1, -, -, -, h5⟩ := format_layout p width height
  exact ⟨rfl, h1, h5, format_queue p width height, rfl⟩

/-! ## C14 -/

/-- C14. Processing a frame-setup item, planar or packed, whose width is 0 or
whose height is 0 leaves the player as it is: no consumer function is called, no
array is created, and the consumer-buffer reference is unchanged. -/
theorem setupBuffer_zero_geometry_skipped (p : Player) (width height u v size : Nat)
    (hz : width = 0 ∨ height = 0) :
    ((AsyncData.I420FrameSetupData width height u v size).process p = p ∧
        ((AsyncData.I420FrameSetupData width height u v size).process p).jsCalls =
          p.jsCalls ∧
        ((AsyncData.I420FrameSetupData width height u v size).process p).jsHeap =
          p.jsHeap ∧
        ((AsyncData.I420FrameSetupData width height u v size).process p)._jsRawFrameBuffer =
          p._jsRawFrameBuffer) ∧
      ((AsyncData.RV32FrameSetupData width height size).process p = p ∧
        ((AsyncData.RV32FrameSetupData width height size).process p).jsCalls =
          p.jsCalls ∧
        ((AsyncData.RV32FrameSetupData width height size).process p).jsHeap = p.jsHeap ∧
        ((AsyncData.RV32FrameSetupData width height size).process p)._jsRawFrameBuffer =
          p._jsRawFrameBuffer) := by
  have e1 : (AsyncData.I420FrameSetupData width height u v size).process p = p := by
    simp [AsyncData.process, setupBuffer_I420, hz]
  have e2 : (AsyncData.RV32FrameSetupData width height size).process p = p := by
    simp [AsyncData.process, setupBuffer_RV32, hz]
  rw [e1, e2]
  exact ⟨⟨rfl, rfl, rfl, rfl⟩, ⟨rfl, rfl, rfl, rfl⟩⟩

/-- C14 at the item `video_format_cb(0, 7)` enqueues, with a function registered
for `CB_FrameSetup`: processing it calls nothing and attaches nothing. -/
theorem setupBuffer_zero_geometry_skipped_0_7 :
    ((0 : Nat) = 0 ∨ (7 : Nat) = 0) ∧
      ((AsyncData.I420FrameSetupData 0 7 0 0 0).process
          (setJsCallback Callbacks_e.CB_FrameSetup Player.init)).jsCalls = [] ∧
      ((AsyncData.I420FrameSetupData 0 7 0 0 0).process
          (setJsCallback Callbacks_e.CB_FrameSetup Player.init))._jsRawFrameBuffer =
        CharPtr.nullptr :=
  ⟨Or.inl rfl,
    (setupBuffer_zero_geometry_skipped (setJsCallback Callbacks_e.CB_FrameSetup Player.init)
      0 7 0 0 0 (Or.inl rfl)).1.2.1,
    (setupBuffer_zero_geometry_skipped (setJsCallback Callbacks_e.CB_FrameSetup Player.init)
      0 7 0 0 0 (Or.inl rfl)).1.2.2.2⟩

/-! ## C15 -/

/-- C15, on the code: each producer callback accesses the queue only between
`lock()` and `unlock()`, but `handleAsync` does not: in every execution its first
action is the read `_asyncData.empty()` of the loop condition, made while the
mutex is not held, so its accesses are not all guarded. -/
theorem handleAsync_reads_queue_unlocked (arrivals : List (List AsyncData)) (p : Player) :
    (guarded false video_format_cb_actions = true ∧
        guarded false video_cleanup_cb_actions = true ∧
        guarded false video_display_cb_actions = true ∧
        guarded false media_player_event_actions = true) ∧
      (handleAsync_actions arrivals p).head? = some QueueAction.read ∧
      guarded false (handleAsync_actions arrivals p) = false := by
  refine ⟨⟨rfl, rfl, rfl, rfl⟩, ?_⟩
  cases arrivals with
  | nil =>
    unfold handleAsync_actions
    split <;> exact ⟨rfl, rfl⟩
  | cons a rest =>
    unfold handleAsync_actions
    split
    · exact ⟨rfl, rfl⟩
    · exact ⟨rfl, by simp [guarded]⟩

/-! ## C16 -/

/-- Where the exact total size fits in 32 bits, the item `video_format_cb`
enqueues for a non-zero width and height passes the assertion of `setupBuffer`. -/
theorem format_item_assert_of_fits (p : Player) (width height : Nat)
    (hw : 0 < width) (hh : 0 < height)
    (ht : (planarLayout id width height).totalSize < 4294967296) :
    setupBuffer_I420_assert (video_format_cb p width height).1._uPlaneOffset
      (video_format_cb p width height).1._vPlaneOffset
      (u32 (video_format_cb p width height).1._tmpFrameBuffer.length) = true := by
  obtain ⟨h1, h2, h3⟩ := format_offsets_increasing_of_fits p width height hw hh ht
  have h5 := (format_layout p width height).2.2.2.2
  have h6 : u32 (video_format_cb p width height).1._tmpFrameBuffer.length =
      (video_format_cb p width height).1._tmpFrameBuffer.length := by
    rw [h5]
    exact u32_of_lt (planarLayout_totalSize_lt _ _)
  rw [h6]
  simp only [setupBuffer_I420_assert, bne_iff_ne, Bool.and_eq_true, ne_eq]
  omega

/-- C16, at the failing input `video_format_cb(65536, 65536)`: width and height
are non-zero, the item enqueued is
`I420FrameSetupData(65536, 65536, 0, 1073741824, 2147483648)`, its `uPlaneOffset`
is 0, and the condition asserted in `setupBuffer` is false for it. -/
theorem video_format_cb_item_fails_assert (p : Player) :
    (video_format_cb p 65536 65536).1._asyncData =
        p._asyncData ++ [AsyncData.I420FrameSetupData 65536 65536 0 1073741824 2147483648] ∧
      setupBuffer_I420_assert 0 1073741824 2147483648 = false ∧
      ((AsyncData.I420FrameSetupData 65536 65536 0 1073741824 2147483648).process p)._jsRawFrameBuffer =
        ⟨Region.jsArrayData p.jsHeap.length, 0⟩ := by
  have e : planarLayout u32 65536 65536 =
      ⟨65536, 65536, 65536, 32768, 0, 1073741824, 2147483648⟩ := by decide
  refine ⟨?_, by decide, ?_⟩
  · rw [format_queue]
    simp only [ProducerCall.item, e]
  · exact (setupBuffer_I420_attaches 65536 65536 0 1073741824 2147483648 p
      (by decide) (by decide)).1

/-! ## C17 -/

/-- C17, at the failing sequence negotiate(2, 2), drain, negotiate(4, 4): the
second negotiation has total size 32 and sizes the scratch buffer to 32 bytes,
but the next `video_lock_cb` releases the scratch buffer and selects the array
created for the first negotiation, which has 16 bytes; the plane pointers at the
offsets 16 and 24 do not lie inside it. -/
theorem video_lock_cb_selects_stale_buffer :
    (planarLayout u32 4 4).totalSize = 32 ∧
      (runSteps [.negotiate 2 2, .drain, .negotiate 4 4] Player.init)._tmpFrameBuffer.length =
        32 ∧
      (video_lock_cb (runSteps [.negotiate 2 2, .drain, .negotiate 4 4] Player.init)).2 =
        [⟨Region.jsArrayData 0, 0⟩, ⟨Region.jsArrayData 0, 16⟩,
         ⟨Region.jsArrayData 0, 24⟩] ∧
      regionSize (video_lock_cb (runSteps [.negotiate 2 2, .drain, .negotiate 4 4] Player.init)).1
          (Region.jsArrayData 0) = some 16 ∧
      (video_lock_cb (runSteps [.negotiate 2 2, .drain, .negotiate 4 4] Player.init)).1._tmpFrameBuffer =
        [] ∧
      (video_lock_cb
          (runSteps [.negotiate 2 2, .drain, .lock, .unlock, .display, .cleanup, .negotiate 4 4]
            Player.init)).2 =
        [⟨Region.jsArrayData 0, 0⟩, ⟨Region.jsArrayData 0, 16⟩,
         ⟨Region.jsArrayData 0, 24⟩] := by
  decide

end JsVlcPlayer
